import Mathlib

/-!
Verification development for the SensorthingAPI repository.

The repository contains three variants of an Excel → SensorThings-document
transformer:

* `excel_to_sta_customized.py` — class `SensorThingsTransformer` with
  per-entity create-or-get stores (wide input shape);
* `final_version_6things.py` — function `excel_to_sensorthings` with a
  LEGENDE lookup enriching the Thing key (wide input shape);
* `without enum/sensorthings_excel_converter.py` — normalized input shape
  (one table per entity type with foreign-key columns).

Each Python function is shallowly embedded as an executable Lean
definition; Python dicts become association lists (which preserve
insertion order, as Python dicts do), pandas cells become the `Cell`
inductive, Python exceptions become `Except`, and `uuid.uuid4()` becomes
an explicit stream of fresh strings.
-/

namespace STA

/-! ## Pandas cell model (wide-shape pipelines)

A cell of a wide-shape sheet: missing (NaN), an integer, a float
(modelled as a rational), a string, or a datetime/Timestamp whose
`isoformat()` is the given string. -/

inductive Cell where
  | na
  | int (n : Int)
  | float (q : Rat)
  | str (s : String)
  | time (iso : String)
  deriving DecidableEq, Repr

/-- `pd.isna` on a cell. -/
def pdIsna : Cell → Bool
  | .na => true
  | _ => false

/-- Python `str()` applied to a cell value, as the pipelines use it on
identifier cells: `str(nan)` is `"nan"`, integers and strings print
as themselves.  (Float and timestamp identifier cells do not occur in
the claims' inputs; they are rendered by a fixed deterministic scheme
approximating CPython's `repr`.) -/
def pyStr : Cell → String
  | .na => "nan"
  | .int n => toString n
  | .float q => if q.den = 1 then toString q.num ++ ".0" else toString q
  | .str s => s
  | .time iso => iso

/-- A single digit parse. -/
def digitVal (c : Char) : Option Nat :=
  if c.isDigit then some (c.toNat - '0'.toNat) else none

/-- Parse a nonempty digit run to a natural number together with the
number of digits consumed. -/
def parseDigits : List Char → Option (Nat × Nat)
  | [] => none
  | cs =>
    let rec go : List Char → Nat → Nat → Option (Nat × Nat)
      | [], acc, k => if k = 0 then none else some (acc, k)
      | c :: rest, acc, k =>
        match digitVal c with
        | some d => go rest (acc * 10 + d) (k + 1)
        | none => if k = 0 then none else some (acc, k)
    match go cs 0 0 with
    | some (n, k) => if k = cs.length then some (n, k) else none
    | none => none

/-- Split a character list at every occurrence of `sep` (the resulting
list is always nonempty). -/
def splitOnChar (sep : Char) : List Char → List (List Char)
  | [] => [[]]
  | c :: rest =>
    match splitOnChar sep rest with
    | [] => [[c]]
    | h :: t => if c = sep then [] :: h :: t else (c :: h) :: t

/-- Python's `s.split(sep)` for a one-character separator. -/
def strSplitChar (s : String) (sep : Char) : List String :=
  (splitOnChar sep s.data).map String.mk

/-- Python's `s.startswith(pre)`. -/
def strStartsWith (s pre : String) : Bool :=
  List.isPrefixOf pre.data s.data

def isWsChar (c : Char) : Bool :=
  c == ' ' || c == '\t' || c == '\n' || c == '\r'

/-- Strip leading and trailing whitespace. -/
def trimChars (cs : List Char) : List Char :=
  ((cs.dropWhile isWsChar).reverse.dropWhile isWsChar).reverse

/-- Parse the decimal body `digits[.digits]` of a numeric literal. -/
def parseDecimalBody (cs : List Char) : Option Rat :=
  match splitOnChar '.' cs with
  | [intPart] =>
    match parseDigits intPart with
    | some (n, _) => some ((n : Int) : Rat)
    | none => none
  | [intPart, fracPart] =>
    match parseDigits intPart, parseDigits fracPart with
    | some (n, _), some (m, k) =>
      some (mkRat ((n * 10 ^ k + m : Nat) : Int) (10 ^ k))
    | _, _ => none
  | _ => none

/-- Model of Python's `float(string)` on decimal literals with an
optional sign (exponent forms, `inf` and `nan` literals are outside the
inputs this repository feeds to `float`). -/
def parseFloatString (s : String) : Option Rat :=
  let t := trimChars s.data
  match t with
  | '-' :: rest => (parseDecimalBody rest).map (fun q => -q)
  | '+' :: rest => parseDecimalBody rest
  | _ => parseDecimalBody t

/-- Model of Python's `float(value)` coercion: numbers pass through,
strings are parsed, anything else raises `ValueError`/`TypeError`
(returned as `Except.error`). -/
def pyFloat : Cell → Except String Rat
  | .int n => .ok (n : Rat)
  | .float q => .ok q
  | .str s =>
    match parseFloatString s with
    | some q => .ok q
    | none => .error ("could not convert string to float: " ++ s)
  | .time iso => .error ("float() argument cannot be a Timestamp: " ++ iso)
  | .na => .error "float() argument cannot be missing"

/-- `isErr` on an `Except` result. -/
def isErr : Except String α → Bool
  | .error _ => true
  | .ok _ => false

/-! ## Ordered association-list stores (Python dicts) -/

/-- A Python dict keyed by strings: an ordered association list.
Insertion appends at the end, as Python dicts preserve insertion
order. -/
abbrev Store (α : Type) : Type := List (String × α)

/-- `d.get(k)` / `k in d`: first binding of the key. -/
def Store.lookup (s : Store α) (k : String) : Option α :=
  (List.find? (fun p => p.1 = k) s).map (·.2)

/-- `d[k] = v` for a key known to be absent: append at the end. -/
def Store.push (s : Store α) (k : String) (v : α) : Store α :=
  s ++ [(k, v)]

/-- `d[k] = v` in general: overwrite in place if present, else append. -/
def Store.set (s : Store α) (k : String) (v : α) : Store α :=
  if (s.lookup k).isSome then
    s.map (fun p => if p.1 = k then (k, v) else p)
  else s.push k v

/-- Items of the store, in insertion order. -/
def Store.items (s : Store α) : List (String × α) := s

/-- Substring test on character lists. -/
def containsSub (pat : List Char) : List Char → Bool
  | [] => List.isPrefixOf pat []
  | c :: rest => List.isPrefixOf pat (c :: rest) || containsSub pat rest

/-- Python's `pat in s` substring containment. -/
def strContains (s pat : String) : Bool :=
  containsSub pat.data s.data

/-! ## Shared entity shapes (wide-shape pipelines) -/

/-- `unitOfMeasurement` dict. -/
structure UoM where
  name : String
  symbol : String
  definition : String
  deriving DecidableEq, Repr

/-- `ObservationType.MEASUREMENT.value`. -/
def obsTypeMeasurement : String :=
  "http://www.opengis.net/def/observationType/OGC-OM/2.0/OM_Measurement"

/-- An ObservedProperty dict as both wide-shape variants build it. -/
structure OProp where
  iotId : String
  name : String
  description : String
  definition : String
  deriving DecidableEq, Repr

/-- A Sensor dict as both wide-shape variants build it. -/
structure Sensor where
  iotId : String
  name : String
  description : String
  encodingType : String
  metadata : String
  deriving DecidableEq, Repr

/-- The static `unit_mapping` dict (identical in
`excel_to_sta_customized.py` and `final_version_6things.py`). -/
def unitMapping : Store UoM :=
  [ ("TEMP", ⟨"Degree Celsius", "°C", "ucum:Cel"⟩),
    ("WINDR", ⟨"Wind Direction", "°", "ucum:deg"⟩),
    ("GLOBAL", ⟨"Global Radiation", "W/m²", "ucum:W/m2"⟩),
    ("NIEDER", ⟨"Precipitation", "mm", "ucum:mm"⟩),
    ("TEMPHUMUS", ⟨"Temperature Humus", "°C", "ucum:Cel"⟩),
    ("TEMP100", ⟨"Temperature 100cm", "°C", "ucum:Cel"⟩),
    ("TEMP20", ⟨"Temperature 20cm", "°C", "ucum:Cel"⟩),
    ("TEMP200", ⟨"Temperature 200cm", "°C", "ucum:Cel"⟩),
    ("TEMP35", ⟨"Temperature 35cm", "°C", "ucum:Cel"⟩),
    ("TEMP5", ⟨"Temperature 5cm", "°C", "ucum:Cel"⟩),
    ("TEMP50", ⟨"Temperature 50cm", "°C", "ucum:Cel"⟩),
    ("TDR20_1", ⟨"Soil Moisture 20cm (1)", "%", "ucum:%"⟩),
    ("TDR20_2", ⟨"Soil Moisture 20cm (2)", "%", "ucum:%"⟩),
    ("TDR50_1", ⟨"Soil Moisture 50cm (1)", "%", "ucum:%"⟩),
    ("TDR50_2", ⟨"Soil Moisture 50cm (2)", "%", "ucum:%"⟩),
    ("TDR100_1", ⟨"Soil Moisture 100cm (1)", "%", "ucum:%"⟩),
    ("TDR100_2", ⟨"Soil Moisture 100cm (2)", "%", "ucum:%"⟩),
    ("%nFK", ⟨"Available Field Capacity", "%", "ucum:%"⟩),
    ("TENS20_1", ⟨"Soil Tension 20cm (1)", "kPa", "ucum:kPa"⟩),
    ("TENS20_2", ⟨"Soil Tension 20cm (2)", "kPa", "ucum:kPa"⟩),
    ("TENS50_1", ⟨"Soil Tension 50cm (1)", "kPa", "ucum:kPa"⟩),
    ("TENS50_2", ⟨"Soil Tension 50cm (2)", "kPa", "ucum:kPa"⟩),
    ("TENS100_1", ⟨"Soil Tension 100cm (1)", "kPa", "ucum:kPa"⟩),
    ("TENS100_2", ⟨"Soil Tension 100cm (2)", "kPa", "ucum:kPa"⟩) ]

/-- The fallback `unitOfMeasurement` used for measurement codes missing
from `unitMapping`. -/
def fallbackUoM : UoM := ⟨"Unknown", "", "ucum:"⟩

/-! ## A wide-shape sheet

Rows are association lists from column labels to cells; `row[c]`
(`rowGet`) returns the first cell under label `c` (rows are built with
exactly the sheet's columns, so the label is always present; a missing
label is read as NaN). -/

abbrev Row : Type := List (String × Cell)

def rowGet (r : Row) (c : String) : Cell :=
  ((List.find? (fun p => p.1 = c) r).map (·.2)).getD .na

/-- A sheet: its column labels in order, and its data rows. -/
structure Df where
  columns : List String
  rows : List Row
  deriving DecidableEq, Repr

/-- Timestamp normalization: `timestamp.isoformat()` when the cell is a
datetime/Timestamp, identity otherwise. -/
def normTs : Cell → Cell
  | .time iso => .str iso
  | c => c

/-! ## `excel_to_sta_customized.py`: `SensorThingsTransformer`

Entity stores of the transformer object.  Python dict field access
`self.things[id_ms] = {...}` after an absence check is `Store.push`;
`return self.things[id_ms]` returns the (possibly just inserted)
binding. -/

structure ThingC where
  iotId : String
  name : String
  description : String
  propIdMs : String
  propCategory : String
  deriving DecidableEq, Repr

structure LocationC where
  iotId : String
  name : String
  description : String
  encodingType : String
  geoType : String
  coordinates : List Int
  deriving DecidableEq, Repr

structure DatastreamC where
  iotId : String
  name : String
  description : String
  observationType : String
  unitOfMeasurement : UoM
  sensor : Sensor
  observedProperty : OProp
  deriving DecidableEq, Repr

structure ObservationC where
  phenomenonTime : Cell
  resultTime : Cell
  result : Rat
  deriving DecidableEq, Repr

structure StateC where
  things : Store ThingC
  locations : Store LocationC
  observedProperties : Store OProp
  sensors : Store Sensor
  datastreams : Store DatastreamC
  observations : List ObservationC
  deriving DecidableEq, Repr

def initStateC : StateC := ⟨[], [], [], [], [], []⟩

/-- `SensorThingsTransformer.create_thing`. -/
def createThingC (st : StateC) (idMs category : String) : ThingC × StateC :=
  match st.things.lookup idMs with
  | some t => (t, st)
  | none =>
    let t : ThingC :=
      { iotId := "thing_" ++ idMs
        name := "Measurement Station " ++ idMs
        description := category ++ " measurement station with ID " ++ idMs
        propIdMs := idMs
        propCategory := category }
    (t, { st with things := st.things.push idMs t })

/-- `SensorThingsTransformer.create_location`; the location id uses
`thing_id.split('_')[1]`. -/
def createLocationC (st : StateC) (thingId : String) : LocationC × StateC :=
  match st.locations.lookup thingId with
  | some l => (l, st)
  | none =>
    let l : LocationC :=
      { iotId := "location_" ++ ((strSplitChar thingId '_').getD 1 "")
        name := "Location for " ++ thingId
        description := "Measurement station location"
        encodingType := "application/geo+json"
        geoType := "Point"
        coordinates := [0, 0] }
    (l, { st with locations := st.locations.push thingId l })

/-- `SensorThingsTransformer.create_observed_property`. -/
def createObservedPropertyC (st : StateC) (propertyName : String) :
    OProp × StateC :=
  match st.observedProperties.lookup propertyName with
  | some p => (p, st)
  | none =>
    let friendlyName := ((unitMapping.lookup propertyName).map (·.name)).getD propertyName
    let p : OProp :=
      { iotId := "op_" ++ propertyName
        name := friendlyName
        description := "Observed property for " ++ friendlyName
        definition := "http://example.org/properties/" ++ propertyName }
    (p, { st with observedProperties := st.observedProperties.push propertyName p })

/-- `SensorThingsTransformer.create_sensor`. -/
def createSensorC (st : StateC) (propertyName : String) : Sensor × StateC :=
  match st.sensors.lookup propertyName with
  | some s => (s, st)
  | none =>
    let friendlyName := ((unitMapping.lookup propertyName).map (·.name)).getD propertyName
    let s : Sensor :=
      { iotId := "sensor_" ++ propertyName
        name := friendlyName ++ " Sensor"
        description := "Sensor for measuring " ++ friendlyName
        encodingType := "application/pdf"
        metadata := "http://example.org/sensors/" ++ propertyName }
    (s, { st with sensors := st.sensors.push propertyName s })

/-- `SensorThingsTransformer.create_datastream`: creates the Sensor and
ObservedProperty on demand, then the Datastream under key
`f"{thing_id}_{property_name}"`. -/
def createDatastreamC (st : StateC) (thingId propertyName : String) :
    DatastreamC × StateC :=
  let datastreamKey := thingId ++ "_" ++ propertyName
  match st.datastreams.lookup datastreamKey with
  | some d => (d, st)
  | none =>
    let friendlyName := ((unitMapping.lookup propertyName).map (·.name)).getD propertyName
    let uom := (unitMapping.lookup propertyName).getD fallbackUoM
    let sensor := (createSensorC st propertyName).1
    let st1 := (createSensorC st propertyName).2
    let oprop := (createObservedPropertyC st1 propertyName).1
    let st2 := (createObservedPropertyC st1 propertyName).2
    let d : DatastreamC :=
      { iotId := "ds_" ++ datastreamKey
        name := friendlyName ++ " Datastream for Thing " ++ thingId
        description := "Datastream for measuring " ++ friendlyName
        observationType := obsTypeMeasurement
        unitOfMeasurement := uom
        sensor := sensor
        observedProperty := oprop }
    (d, { st2 with datastreams := st2.datastreams.push datastreamKey d })

/-- `SensorThingsTransformer.create_observation`: appends the
observation; the `datastream_id` argument is accepted but not stored
(the dict has no Datastream back-reference). -/
def createObservationC (st : StateC) (_datastreamId : String)
    (timestamp : Cell) (value : Rat) : StateC :=
  { st with observations :=
      st.observations ++ [⟨timestamp, timestamp, value⟩] }

/-- The per-sheet timestamp column of `process_sheet`. -/
def tsColFor (sheetName : String) : String :=
  if sheetName = "FREIFLÄCHE" then "DATUM_ZEIT"
  else if sheetName = "Boden+Lufttemp_Bestand C°" then "DATUMZEIT"
  else "DATUM"

/-- The per-sheet category of `process_sheet` (and of
`final_version_6things.py`). -/
def categoryFor (sheetName : String) : String :=
  if sheetName = "FREIFLÄCHE" then "Weather Station"
  else if strContains sheetName "Boden" || strContains sheetName "Tension" then
    "Soil Sensor"
  else "Generic Sensor"

/-- The body of `process_sheet`'s inner column loop for one measurement
column: skip id/timestamp/`Unnamed` columns and NaN cells, take the
column header's leading token as the measurement code, create the
Datastream, then coerce the value with `float` (raising on failure) and
record the Observation. -/
def processCellC (idCol tsCol thingId : String) (ts : Cell) (row : Row)
    (st : StateC) (c : String) : Except String StateC :=
  if c = idCol ∨ c = tsCol ∨ strStartsWith c "Unnamed" then .ok st
  else
    let v := rowGet row c
    if pdIsna v then .ok st
    else
      let measurementType := ((strSplitChar c ' ').headD "")
      let ds := (createDatastreamC st thingId measurementType).1
      let st1 := (createDatastreamC st thingId measurementType).2
      match pyFloat v with
      | .error e => .error e
      | .ok q => .ok (createObservationC st1 ds.iotId ts q)

/-- The body of `process_sheet`'s row loop: stringify the identifier,
create the Thing and its Location, then (only if the timestamp is
present) process every column of the sheet. -/
def processRowC (cols : List String) (idCol tsCol category : String)
    (st : StateC) (row : Row) : Except String StateC :=
  let idMs := pyStr (rowGet row idCol)
  let thing := (createThingC st idMs category).1
  let st1 := (createThingC st idMs category).2
  let st2 := (createLocationC st1 thing.iotId).2
  let ts := rowGet row tsCol
  if pdIsna ts then .ok st2
  else cols.foldlM (processCellC idCol tsCol thing.iotId (normTs ts) row) st2

/-- `SensorThingsTransformer.process_sheet`. -/
def processSheetC (st : StateC) (sheetName : String) (df : Df) :
    Except String StateC :=
  if sheetName = "LEGENDE" then .ok st
  else
    df.rows.foldlM
      (processRowC df.columns "ID_MS" (tsColFor sheetName) (categoryFor sheetName))
      st

/-- A Datastream node of the output document: the Datastream dict with
an `Observations` key added when the collected list is nonempty. -/
structure DsOutC where
  ds : DatastreamC
  observations : Option (List ObservationC)
  deriving DecidableEq, Repr

/-- A Thing node of the output document. -/
structure ThingOutC where
  thing : ThingC
  locations : Option (List LocationC)
  datastreams : Option (List DsOutC)
  deriving DecidableEq, Repr

structure DocC where
  things : List ThingOutC
  deriving DecidableEq, Repr

/-- `SensorThingsTransformer.construct_nested_structure`: for each
Thing (in insertion order), attach its Location, every Datastream whose
store key starts with the Thing's `@iot.id`
(`datastream_key.startswith(thing["@iot.id"])`), and under each such
Datastream the whole `self.observations` list (the inner loop appends
every observation unconditionally). -/
def constructNestedC (st : StateC) : DocC :=
  { things :=
      st.things.items.map (fun p =>
        let thing := p.2
        let thingDatastreams :=
          st.datastreams.items.filterMap (fun q =>
            if strStartsWith q.1 thing.iotId then
              some { ds := q.2
                     observations :=
                       if st.observations.isEmpty then none
                       else some st.observations : DsOutC }
            else none)
        { thing := thing
          locations :=
            match st.locations.lookup thing.iotId with
            | some l => some [l]
            | none => none
          datastreams :=
            if thingDatastreams.isEmpty then none else some thingDatastreams }) }

/-- `SensorThingsTransformer.transform` /
`excel_to_sensorthings(path)` of `excel_to_sta_customized.py`: process
every sheet of the workbook, then build the nested document.  A
`ValueError` raised by `float` propagates to the caller as
`Except.error`. -/
def excelToSensorthingsC (excelData : List (String × Df)) :
    Except String DocC := do
  let st ← excelData.foldlM (fun st p => processSheetC st p.1 p.2) initStateC
  pure (constructNestedC st)

/-! ## `without enum/sensorthings_excel_converter.py` (normalized shape)

Cells of the normalized tables can be scalars or JSON-structured
values.  `Val.vna` is a pandas missing value (NaN); Python's `None`
(absent label / removed key) is `Option.none` at the use sites. -/

inductive Val where
  | vna
  | vint (n : Int)
  | vnum (q : Rat)
  | vstr (s : String)
  | vbool (b : Bool)
  | vobj (fields : List (String × Val))
  | varr (elems : List Val)
  deriving Repr

/-- `pd.isna` on a normalized-shape cell. -/
def vIsna : Val → Bool
  | .vna => true
  | _ => false

/-! Python `==` on the values this pipeline compares (numbers compare
across `int`/`float`/`bool`, `NaN == x` is `False`, dicts compare
unordered, lists elementwise). -/

mutual

def pyEq : Val → Val → Bool
  | .vint n, .vint m => n == m
  | .vint n, .vnum q => ((n : Rat)) == q
  | .vnum q, .vint n => q == ((n : Rat))
  | .vnum q, .vnum r => q == r
  | .vstr s, .vstr t => s == t
  | .vbool a, .vbool b => a == b
  | .vbool b, .vint n => (if b then (1 : Int) else 0) == n
  | .vint n, .vbool b => n == (if b then (1 : Int) else 0)
  | .vbool b, .vnum q => (((if b then (1 : Int) else 0) : Rat)) == q
  | .vnum q, .vbool b => q == (((if b then (1 : Int) else 0) : Rat))
  | .vobj f, .vobj g => f.length == g.length && pyEqFields f g
  | .varr a, .varr b => pyEqElems a b
  | _, _ => false

def pyEqFields : List (String × Val) → List (String × Val) → Bool
  | [], _ => true
  | (k, v) :: rest, g =>
    (match (List.find? (fun p => p.1 == k) g) with
     | some p => pyEq v p.2
     | none => false) && pyEqFields rest g

def pyEqElems : List Val → List Val → Bool
  | [], [] => true
  | _ :: _, [] => false
  | [], _ :: _ => false
  | a :: as, b :: bs => pyEq a b && pyEqElems as bs

end

/-- Python `x == y` where either side may be `None`: `None == None` is
`True`, `None` never equals a value. -/
def pyEqOpt : Option Val → Option Val → Bool
  | some a, some b => pyEq a b
  | none, none => true
  | _, _ => false

/-! ### `json.loads`

A fueled recursive-descent model of `json.loads` for the JSON texts the
normalized tables carry (objects, arrays, strings with the common
escapes, numbers, `true`/`false`/`null`; JSON `null` is read as the
missing value).  A malformed text is a raised `JSONDecodeError`. -/

def jsonWs : List Char → List Char
  | c :: rest => if c = ' ' ∨ c = '\t' ∨ c = '\n' ∨ c = '\r' then jsonWs rest else c :: rest
  | [] => []

def jsonStringBody : List Char → Option (String × List Char)
  | [] => none
  | '"' :: rest => some ("", rest)
  | '\\' :: e :: rest =>
    let esc : Option Char :=
      if e = 'n' then some '\n'
      else if e = 't' then some '\t'
      else if e = 'r' then some '\r'
      else if e = '"' ∨ e = '\\' ∨ e = '/' then some e
      else none
    match esc with
    | some c =>
      match jsonStringBody rest with
      | some (s, rest') => some (String.mk (c :: s.toList), rest')
      | none => none
    | none => none
  | c :: rest =>
    match jsonStringBody rest with
    | some (s, rest') => some (String.mk (c :: s.toList), rest')
    | none => none

def jsonDigitsAcc : List Char → Nat → Nat → (Nat × Nat × List Char)
  | c :: rest, acc, k =>
    match digitVal c with
    | some d => jsonDigitsAcc rest (acc * 10 + d) (k + 1)
    | none => (acc, k, c :: rest)
  | [], acc, k => (acc, k, [])

/-- Parse a JSON number (integers yield `vint`, fraction/exponent forms
yield `vnum`). -/
def jsonNumber (cs : List Char) : Option (Val × List Char) :=
  let (neg, cs1) := match cs with
    | '-' :: rest => (true, rest)
    | _ => (false, cs)
  let (ip, ik, cs2) := jsonDigitsAcc cs1 0 0
  if ik = 0 then none
  else
    let (frac, fk, cs3) := match cs2 with
      | '.' :: rest =>
        let (m, k, r) := jsonDigitsAcc rest 0 0
        (m, k, r)
      | _ => (0, 0, cs2)
    if cs2 ≠ cs3 ∧ fk = 0 then none
    else
      let (hasExp, expNeg, ev, cs4) := match cs3 with
        | 'e' :: '-' :: rest => let (e, _, r) := jsonDigitsAcc rest 0 0; (true, true, e, r)
        | 'e' :: '+' :: rest => let (e, _, r) := jsonDigitsAcc rest 0 0; (true, false, e, r)
        | 'e' :: rest => let (e, _, r) := jsonDigitsAcc rest 0 0; (true, false, e, r)
        | 'E' :: '-' :: rest => let (e, _, r) := jsonDigitsAcc rest 0 0; (true, true, e, r)
        | 'E' :: '+' :: rest => let (e, _, r) := jsonDigitsAcc rest 0 0; (true, false, e, r)
        | 'E' :: rest => let (e, _, r) := jsonDigitsAcc rest 0 0; (true, false, e, r)
        | _ => (false, false, 0, cs3)
      if fk = 0 ∧ ¬hasExp then
        some (.vint (if neg then -(ip : Int) else (ip : Int)), cs2)
      else
        let num : Nat :=
          (ip * 10 ^ fk + frac) * (if hasExp ∧ ¬expNeg then 10 ^ ev else 1)
        let den : Nat := 10 ^ fk * (if hasExp ∧ expNeg then 10 ^ ev else 1)
        let signedNum : Int := if neg then -(num : Int) else (num : Int)
        some (.vnum (mkRat signedNum den), cs4)

mutual

def jsonVal : Nat → List Char → Option (Val × List Char)
  | 0, _ => none
  | fuel + 1, cs =>
    match jsonWs cs with
    | '{' :: rest =>
      match jsonObjItems fuel (jsonWs rest) with
      | some (fields, rest') => some (.vobj fields, rest')
      | none => none
    | '[' :: rest =>
      match jsonArrItems fuel (jsonWs rest) with
      | some (elems, rest') => some (.varr elems, rest')
      | none => none
    | '"' :: rest =>
      match jsonStringBody rest with
      | some (s, rest') => some (.vstr s, rest')
      | none => none
    | 't' :: 'r' :: 'u' :: 'e' :: rest => some (.vbool true, rest)
    | 'f' :: 'a' :: 'l' :: 's' :: 'e' :: rest => some (.vbool false, rest)
    | 'n' :: 'u' :: 'l' :: 'l' :: rest => some (.vna, rest)
    | rest => jsonNumber rest

def jsonArrItems : Nat → List Char → Option (List Val × List Char)
  | 0, _ => none
  | fuel + 1, cs =>
    match cs with
    | ']' :: rest => some ([], rest)
    | _ =>
      match jsonVal fuel cs with
      | some (v, rest) =>
        match jsonWs rest with
        | ',' :: rest' =>
          match jsonArrItems fuel (jsonWs rest') with
          | some ([], _) => none
          | some (vs, rest'') => some (v :: vs, rest'')
          | none => none
        | ']' :: rest' => some ([v], rest')
        | _ => none
      | none => none

def jsonObjItems : Nat → List Char → Option (List (String × Val) × List Char)
  | 0, _ => none
  | fuel + 1, cs =>
    match cs with
    | '}' :: rest => some ([], rest)
    | '"' :: rest =>
      match jsonStringBody rest with
      | some (k, rest1) =>
        match jsonWs rest1 with
        | ':' :: rest2 =>
          match jsonVal fuel rest2 with
          | some (v, rest3) =>
            match jsonWs rest3 with
            | ',' :: rest4 =>
              match jsonObjItems fuel (jsonWs rest4) with
              | some ([], _) => none
              | some (fields, rest5) => some ((k, v) :: fields, rest5)
              | none => none
            | '}' :: rest4 => some ([(k, v)], rest4)
            | _ => none
          | none => none
        | _ => none
      | none => none
    | _ => none

end

/-- `json.loads(s)`: parse the whole string, raising on malformed
input. -/
def jsonLoads (s : String) : Except String Val :=
  match jsonVal (s.length + 1) s.toList with
  | some (v, rest) =>
    if jsonWs rest = [] then .ok v
    else .error ("Extra data in JSON document: " ++ s)
  | none => .error ("Expecting value in JSON document: " ++ s)

/-! ### Normalized-shape rows and entities

A row of a normalized table maps column labels to cells.
`row.get(label)` is `None` when the label is absent (`pyGet` returns
`Option.none`), and the stored cell (possibly NaN) when present. -/

abbrev VRow : Type := List (String × Val)

def pyGet (r : VRow) (k : String) : Option Val :=
  (List.find? (fun p => p.1 == k) r).map (·.2)

/-- An unresolved or resolved entity reference: either the raw
fragment `{"@iot.id": id}` built from a foreign-key column, or an
embedded entity dict substituted by the joiner. -/
inductive ERef (α : Type) where
  | frag (id : Val)
  | ent (e : α)
  deriving Repr

/-- A Thing dict of the normalized pipeline (the builder never assigns
`@iot.id`; the field mirrors `thing.get("@iot.id", ...)` in the
assembler). -/
structure ThingWE where
  iotId : Option Val := none
  name : Val
  description : Val
  properties : Val
  deriving Repr

structure LocationWE where
  iotId : Option Val := none
  name : Val
  description : Val
  encodingType : Val
  location : Val
  thing : Option Val := none
  deriving Repr

structure OPropWE where
  iotId : Option Val := none
  name : Val
  description : Val
  definition : Val
  deriving Repr

structure SensorWE where
  iotId : Option Val := none
  name : Val
  description : Val
  encodingType : Val
  metadata : Val
  deriving Repr

/-- An Observation dict of the normalized pipeline; `none` fields are
the keys removed by the "remove None values" step. -/
structure ObsWE where
  phenomenonTime : Option Val := none
  resultTime : Option Val := none
  result : Option Val := none
  resultQuality : Option Val := none
  parameters : Val
  datastream : Option Val := none
  featureOfInterest : Option Val := none
  deriving Repr

/-- A Datastream dict of the normalized pipeline.  `thing` is the
`Thing` fragment's id; `sensor`/`observedProperty` hold the fragment
until the joiner replaces it with the matched entity;
`observations` is the `Observations` key the joiner may add. -/
structure DatastreamWE where
  iotId : Option Val := none
  name : Val
  description : Val
  observationType : Val
  unitOfMeasurement : Val
  thing : Option Val := none
  sensor : Option (ERef SensorWE) := none
  observedProperty : Option (ERef OPropWE) := none
  observations : Option (List ObsWE) := none
  deriving Repr

/-- A foreign-key link column: present and non-NaN, else no link
(`if "thing_id" in row and not pd.isna(row["thing_id"])`). -/
def linkVal (row : VRow) (k : String) : Option Val :=
  match pyGet row k with
  | some v => if vIsna v then none else some v
  | none => none

/-- A JSON-capable field: parse when the cell is a string, keep a
structured value, use the given default when the label is absent. -/
def jsonField (row : VRow) (k : String) (dflt : Val) : Except String Val :=
  match pyGet row k with
  | some (.vstr s) => jsonLoads s
  | some v => pure v
  | none => pure dflt

/-- The structured default for the `location` column. -/
def geoPointDefault : Val :=
  .vobj [("type", .vstr "Point"), ("coordinates", .varr [.vint 0, .vint 0])]

/-! `uuid.uuid4()` is modelled by an explicit stream `f : Nat → String`
of fresh identifiers together with a counter; each defaulted `name`
argument evaluates (and thus consumes) one uuid, whether or not the
default is used, as Python evaluates default arguments eagerly. -/

/-- One pass over the rows of a normalized table: build each row's
entity in order, advancing the uuid counter by one per row (each row's
`name` default evaluates one `uuid.uuid4()`, used or not). -/
def buildRowsWE {α : Type} (buildRow : (Nat → String) → Nat → VRow → Except String α)
    (f : Nat → String) : Nat → List VRow → Except String (List α × Nat)
  | n, [] => .ok ([], n)
  | n, row :: rest => do
    let x ← buildRow f n row
    let (xs, n') ← buildRowsWE buildRow f (n + 1) rest
    pure (x :: xs, n')

def buildThingRowWE (f : Nat → String) (n : Nat) (row : VRow) :
    Except String ThingWE := do
  let name := (pyGet row "name").getD (.vstr ("Thing_" ++ f n))
  let description := (pyGet row "description").getD (.vstr "")
  let properties ← jsonField row "properties" (.vobj [])
  pure { name := name, description := description, properties := properties }

def buildLocationRowWE (f : Nat → String) (n : Nat) (row : VRow) :
    Except String LocationWE := do
  let name := (pyGet row "name").getD (.vstr ("Location_" ++ f n))
  let description := (pyGet row "description").getD (.vstr "")
  let encodingType := (pyGet row "encodingType").getD (.vstr "application/geo+json")
  let location ← jsonField row "location" geoPointDefault
  pure { name := name, description := description, encodingType := encodingType,
         location := location, thing := linkVal row "thing_id" }

/-- ObservedProperty rows cannot fail (no JSON column); the `Except`
wrapper keeps the row builders uniform. -/
def buildOPropRowWE (f : Nat → String) (n : Nat) (row : VRow) :
    Except String OPropWE :=
  pure { name := (pyGet row "name").getD (.vstr ("ObservedProperty_" ++ f n))
         description := (pyGet row "description").getD (.vstr "")
         definition := (pyGet row "definition").getD (.vstr "") }

/-- Sensor rows cannot fail (no JSON column). -/
def buildSensorRowWE (f : Nat → String) (n : Nat) (row : VRow) :
    Except String SensorWE :=
  pure { name := (pyGet row "name").getD (.vstr ("Sensor_" ++ f n))
         description := (pyGet row "description").getD (.vstr "")
         encodingType := (pyGet row "encodingType").getD (.vstr "application/pdf")
         metadata := (pyGet row "metadata").getD (.vstr "") }

def buildDatastreamRowWE (f : Nat → String) (n : Nat) (row : VRow) :
    Except String DatastreamWE := do
  let unitOfMeasurement ← jsonField row "unitOfMeasurement" (.vobj [])
  let name := (pyGet row "name").getD (.vstr ("Datastream_" ++ f n))
  let description := (pyGet row "description").getD (.vstr "")
  let observationType := (pyGet row "observationType").getD (.vstr obsTypeMeasurement)
  pure { name := name, description := description,
         observationType := observationType,
         unitOfMeasurement := unitOfMeasurement,
         thing := linkVal row "thing_id",
         sensor := (linkVal row "sensor_id").map .frag,
         observedProperty := (linkVal row "observed_property_id").map .frag }

def buildObsRowWE (row : VRow) : Except String ObsWE := do
  let parameters ← jsonField row "parameters" (.vobj [])
  let featureOfInterest ←
    match pyGet row "feature_of_interest" with
    | some v =>
      if vIsna v then pure none
      else match v with
        | .vstr s => (jsonLoads s).map some
        | _ => pure (some v)
    | none => pure none
  pure { phenomenonTime := pyGet row "phenomenonTime"
         resultTime := pyGet row "resultTime"
         result := pyGet row "result"
         resultQuality := pyGet row "resultQuality"
         parameters := parameters
         datastream := linkVal row "datastream_id"
         featureOfInterest := featureOfInterest }

def buildObsListWE : List VRow → Except String (List ObsWE)
  | [] => .ok []
  | row :: rest => do
    let o ← buildObsRowWE row
    let os ← buildObsListWE rest
    pure (o :: os)

/-- The six parsed collections handed to `construct_nested_structure`. -/
structure StaData where
  things : List ThingWE
  locations : List LocationWE
  observedProperties : List OPropWE
  sensors : List SensorWE
  datastreams : List DatastreamWE
  observations : List ObsWE
  deriving Repr

def refIdS : ERef SensorWE → Option Val
  | .frag v => some v
  | .ent s => s.iotId

def refIdO : ERef OPropWE → Option Val
  | .frag v => some v
  | .ent p => p.iotId

/-- `"Thing" in x and x["Thing"].get("@iot.id") == thing_id`. -/
def fkMatch (fld : Option Val) (tid : Val) : Bool :=
  match fld with
  | some fid => pyEq fid tid
  | none => false

/-- The joiner's per-Datastream step: replace the `Sensor` and
`ObservedProperty` references by the first entity of the respective
collection whose `@iot.id` equals the reference id (keeping the raw
fragment when none matches), and attach the Observations whose
`Datastream` fragment id equals this Datastream's id (adding the key
only when the list is nonempty). -/
def resolveDsWE (sd : StaData) (d : DatastreamWE) : DatastreamWE :=
  let sensor' :=
    match d.sensor with
    | none => none
    | some ref =>
      match sd.sensors.find? (fun s => pyEqOpt s.iotId (refIdS ref)) with
      | some s => some (.ent s)
      | none => some ref
  let oprop' :=
    match d.observedProperty with
    | none => none
    | some ref =>
      match sd.observedProperties.find? (fun p => pyEqOpt p.iotId (refIdO ref)) with
      | some p => some (.ent p)
      | none => some ref
  let dsObs := sd.observations.filter (fun o =>
    match o.datastream with
    | some fid => pyEqOpt (some fid) d.iotId
    | none => false)
  { d with sensor := sensor', observedProperty := oprop',
           observations := if dsObs.isEmpty then d.observations else some dsObs }

/-- A Thing node of the normalized pipeline's output
(`thing_with_relations`): the Thing dict with `@iot.id` set and the
relation keys added when nonempty. -/
structure ThingOutWE where
  iotId : Val
  name : Val
  description : Val
  properties : Val
  locations : Option (List LocationWE) := none
  datastreams : Option (List DatastreamWE) := none
  deriving Repr

structure DocWE where
  things : List ThingOutWE
  deriving Repr

/-- The Thing loop of `construct_nested_structure` (normalized
pipeline).  `k` is the number of Things already emitted, so a Thing
without `@iot.id` gets `len(result["Things"]) + 1 = k + 1`.  The
Datastream dicts are shared between `sta_data` and the output, and the
joiner mutates them in place; this is modelled by threading the
datastream list and replacing each matched entry by its resolved
version. -/
def buildOutWE (sd : StaData) :
    Nat → List ThingWE → List DatastreamWE → List ThingOutWE
  | _, [], _ => []
  | k, t :: ts, dstore =>
    let tid := t.iotId.getD (.vint ((k : Int) + 1))
    let locs := sd.locations.filter (fun l => fkMatch l.thing tid)
    let matched := dstore.filter (fun d => fkMatch d.thing tid)
    let resolved := matched.map (resolveDsWE sd)
    let dstore' := dstore.map (fun d =>
      if fkMatch d.thing tid then resolveDsWE sd d else d)
    { iotId := tid, name := t.name, description := t.description,
      properties := t.properties,
      locations := if locs.isEmpty then none else some locs,
      datastreams := if matched.isEmpty then none else some resolved } ::
      buildOutWE sd (k + 1) ts dstore'

/-- `construct_nested_structure` of
`without enum/sensorthings_excel_converter.py`. -/
def constructNestedWE (sd : StaData) : DocWE :=
  ⟨buildOutWE sd 0 sd.things sd.datastreams⟩

def tableRowsWE (tables : List (String × List VRow)) (nm : String) :
    List VRow :=
  ((tables.find? (fun p => p.1 == nm)).map (·.2)).getD []

/-- `excel_to_sensorthings` of
`without enum/sensorthings_excel_converter.py`: build the six
collections in source order (absent sheets contribute nothing), then
assemble the nested document.  `json.loads` failures propagate. -/
def excelToSensorthingsWE (f : Nat → String) (n0 : Nat)
    (tables : List (String × List VRow)) : Except String DocWE := do
  let (things, n1) ← buildRowsWE buildThingRowWE f n0 (tableRowsWE tables "Things")
  let (locations, n2) ←
    buildRowsWE buildLocationRowWE f n1 (tableRowsWE tables "Locations")
  let (oprops, n3) ←
    buildRowsWE buildOPropRowWE f n2 (tableRowsWE tables "ObservedProperties")
  let (sensors, n4) ←
    buildRowsWE buildSensorRowWE f n3 (tableRowsWE tables "Sensors")
  let (datastreams, _) ←
    buildRowsWE buildDatastreamRowWE f n4 (tableRowsWE tables "Datastreams")
  let observations ← buildObsListWE (tableRowsWE tables "Observations")
  pure (constructNestedWE
    ⟨things, locations, oprops, sensors, datastreams, observations⟩)

/-! ## `final_version_6things.py`: the assembler

Entity dict shapes built by the row loop of `excel_to_sensorthings`
(lines 116–151 for Things/Locations, 180–237 for the measurement
entities and observations). -/

structure ThingF where
  iotId : String
  name : String
  description : String
  propIdMs : String
  propHms : String
  propBemerkung : String
  propCategory : String
  deriving DecidableEq, Repr

structure LocationF where
  iotId : String
  name : String
  description : String
  encodingType : String
  geoType : String
  coordinates : List Int
  deriving DecidableEq, Repr

structure DatastreamF where
  iotId : String
  name : String
  description : String
  observationType : String
  unitOfMeasurement : UoM
  sensor : Sensor
  observedProperty : OProp
  deriving DecidableEq, Repr

/-- An observation of `final_version_6things.py`: it carries the
temporary `Datastream` back-reference `{"@iot.id": ...}` (`none` after
the assembler pops the key from its copy). -/
structure ObservationF where
  phenomenonTime : Cell
  resultTime : Cell
  result : Rat
  datastream : Option String
  deriving DecidableEq, Repr

/-- The accumulated entity stores of `final_version_6things.py` at the
start of the assembly phase (line 239). -/
structure StateF where
  things : Store ThingF
  locations : Store LocationF
  observedProperties : Store OProp
  sensors : Store Sensor
  datastreams : Store DatastreamF
  observations : List ObservationF
  deriving DecidableEq, Repr

structure DsOutF where
  ds : DatastreamF
  observations : Option (List ObservationF)
  deriving DecidableEq, Repr

structure ThingOutF where
  thing : ThingF
  locations : Option (List LocationF)
  datastreams : Option (List DsOutF)
  deriving DecidableEq, Repr

structure DocF where
  things : List ThingOutF
  deriving DecidableEq, Repr

/-- The Observation filter of the assembler (lines 257–263): collect
copies of the observations whose `Datastream` back-reference equals
this Datastream's id, with the back-reference popped from the copy
only. -/
def fvObsFor (observations : List ObservationF) (dsId : String) :
    List ObservationF :=
  observations.filterMap (fun o =>
    match o.datastream with
    | some did => if did = dsId then some { o with datastream := none } else none
    | none => none)

/-- The per-Thing step of the assembler (lines 243–273): work on a copy
of the Thing, attach its Location, attach copies of the Datastreams
whose store key starts with the Thing's `@iot.id`, and under each the
filtered Observation copies.  The function reads the state and returns
it for the next step (all writes of the source act on `.copy()`
results). -/
def fvProcessThing (st : StateF) (t : ThingF) : ThingOutF × StateF :=
  let thingDatastreams :=
    st.datastreams.items.filterMap (fun q =>
      if strStartsWith q.1 t.iotId then
        let dsObs := fvObsFor st.observations q.2.iotId
        some { ds := q.2
               observations := if dsObs.isEmpty then none else some dsObs : DsOutF }
      else none)
  ({ thing := t
     locations :=
       match st.locations.lookup t.iotId with
       | some l => some [l]
       | none => none
     datastreams :=
       if thingDatastreams.isEmpty then none else some thingDatastreams },
   st)

/-- The Thing loop of the assembler, with the entity state threaded
through every step. -/
def fvBuild : StateF → List (String × ThingF) → List ThingOutF × StateF
  | st, [] => ([], st)
  | st, p :: rest =>
    let (tOut, st1) := fvProcessThing st p.2
    let (outs, st2) := fvBuild st1 rest
    (tOut :: outs, st2)

/-- The assembly phase of `final_version_6things.py` (lines 239–273),
returning the nested document together with the entity state as it
stands after assembly. -/
def constructNestedF (st : StateF) : DocF × StateF :=
  let (outs, st') := fvBuild st st.things.items
  (⟨outs⟩, st')

/-- All observation lists appearing in a document, flattened. -/
def docObservationsF (doc : DocF) : List ObservationF :=
  doc.things.flatMap (fun t =>
    (t.datastreams.getD []).flatMap (fun d => d.observations.getD []))

/-! ## Concrete inputs and output projections used by the claim
theorems -/

/-- Per-Thing table of nested Datastream ids with their attached
Observation lists (customized pipeline). -/
def docDsObsTableC (r : Except String DocC) :
    List (List (String × Option (List ObservationC))) :=
  match r with
  | .ok doc =>
    doc.things.map (fun t =>
      (t.datastreams.getD []).map (fun d => (d.ds.iotId, d.observations)))
  | .error _ => []

/-- Per-Thing table of the Thing id and its nested Datastream ids
(customized pipeline). -/
def docThingDsIdsC (r : Except String DocC) : List (String × List String) :=
  match r with
  | .ok doc =>
    doc.things.map (fun t =>
      (t.thing.iotId, (t.datastreams.getD []).map (·.ds.iotId)))
  | .error _ => []

/-- Thing ids together with the number of attached Locations
(customized pipeline). -/
def docThingLocC (r : Except String DocC) : List (String × Nat) :=
  match r with
  | .ok doc => doc.things.map (fun t => (t.thing.iotId, (t.locations.getD []).length))
  | .error _ => []

/-- Total count of Observation occurrences in the document (customized
pipeline). -/
def docObsCountC (r : Except String DocC) : Nat :=
  match r with
  | .ok doc =>
    (doc.things.flatMap (fun t =>
      (t.datastreams.getD []).flatMap (fun d => d.observations.getD []))).length
  | .error _ => 0

/-- C1's failing input: one station, one row, two measurement columns
(a `TEMP` and a `WINDR` reading). -/
def wbC1 : List (String × Df) :=
  [("DATA",
    { columns := ["ID_MS", "DATUM", "TEMP a", "WINDR b"]
      rows := [[("ID_MS", .str "7"), ("DATUM", .str "T1"),
                ("TEMP a", .float (mkRat 3 2)), ("WINDR b", .float (mkRat 5 2))]] })]

/-- C2's failing input: stations `"1"` and `"10"`, one `TEMP` column
each. -/
def wbC2 : List (String × Df) :=
  [("DATA",
    { columns := ["ID_MS", "DATUM", "TEMP x"]
      rows := [[("ID_MS", .str "1"), ("DATUM", .str "T1"), ("TEMP x", .float (mkRat 41 2))],
               [("ID_MS", .str "10"), ("DATUM", .str "T1"), ("TEMP x", .float 21)]] })]

/-- C3's failing input: a row with a missing timestamp, and a row with
a missing identifier. -/
def wbC3 : List (String × Df) :=
  [("DATA",
    { columns := ["ID_MS", "DATUM", "TEMP x"]
      rows := [[("ID_MS", .str "7"), ("DATUM", .na), ("TEMP x", .float 5)],
               [("ID_MS", .na), ("DATUM", .str "T1"), ("TEMP x", .float 6)]] })]

/-- State reached by the row loop after creating the row's Thing and
its Location (the point of `process_sheet` at which the timestamp is
inspected). -/
def afterThingLocationC (st : StateC) (idMs category : String) : StateC :=
  (createLocationC (createThingC st idMs category).2
    (createThingC st idMs category).1.iotId).2

/-- C3's witness row: identifier present, timestamp missing. -/
def rowC3w : Row := [("ID_MS", .str "9"), ("DATUM", .na), ("TEMP x", .float 4)]

/-- C4's witness input: a present but non-numeric measurement value. -/
def wbC4 : List (String × Df) :=
  [("DATA",
    { columns := ["ID_MS", "DATUM", "TEMP x"]
      rows := [[("ID_MS", .str "7"), ("DATUM", .str "T1"),
                ("TEMP x", .str "abc")]] })]

/-- Names of the Things of a normalized-pipeline result (string names
only; used to observe uuid-dependent output). -/
def weDocThingNames (r : Except String DocWE) : List String :=
  match r with
  | .ok doc =>
    doc.things.map (fun t =>
      match t.name with
      | .vstr s => s
      | _ => "")
  | .error _ => []

/-- The synthetic `@iot.id`s assigned to the Things of a
normalized-pipeline result. -/
def weDocThingIds (r : Except String DocWE) : List Val :=
  match r with
  | .ok doc => doc.things.map (·.iotId)
  | .error _ => []

/-- Every entity row of the five named entity tables supplies a `name`
value (so no uuid-bearing default is ever used). -/
def namesPresentWE (tables : List (String × List VRow)) : Bool :=
  ["Things", "Locations", "ObservedProperties", "Sensors", "Datastreams"].all
    (fun nm => (tableRowsWE tables nm).all (fun row => (pyGet row "name").isSome))

/-- C8's failing input: a single Things row carrying no `name` label,
so its name is defaulted from a fresh uuid. -/
def tablesC8 : List (String × List VRow) := [("Things", [[]])]

/-- C8's witness input: every entity row supplies a `name` value. -/
def tablesC8w : List (String × List VRow) :=
  [("Things", [[("name", .vstr "X")]]),
   ("Sensors", [[("name", .vstr "S")]])]

/-- C6's witness data: the spec's scenario — one Things row without an
id, one Datastream row with `thing_id = 1` and `sensor_id = 9`, and no
Sensor with id 9. -/
def dsC6 : DatastreamWE :=
  { name := .vstr "DS", description := .vstr "", observationType := .vstr "t"
    unitOfMeasurement := .vobj [], thing := some (.vint 1)
    sensor := some (.frag (.vint 9)) }

def sdC6 : StaData :=
  { things := [{ name := .vstr "T", description := .vstr "", properties := .vobj [] }]
    locations := [], observedProperties := [], sensors := []
    datastreams := [dsC6], observations := [] }

/-- C9's witness data: two Things rows without ids, a Location and a
Datastream pointing at the second positional id. -/
def locC9 : LocationWE :=
  { name := .vstr "L", description := .vstr "", encodingType := .vstr "e"
    location := geoPointDefault, thing := some (.vint 2) }

def dsC9 : DatastreamWE :=
  { name := .vstr "D", description := .vstr "", observationType := .vstr "t"
    unitOfMeasurement := .vobj [], thing := some (.vnum 2) }

def sdC9 : StaData :=
  { things := [{ name := .vstr "A", description := .vstr "", properties := .vobj [] },
               { name := .vstr "B", description := .vstr "", properties := .vobj [] }]
    locations := [locC9], observedProperties := [], sensors := []
    datastreams := [dsC9], observations := [] }

def dummyThingWE : ThingWE :=
  { name := .vna, description := .vna, properties := .vna }

def dummyThingOutWE : ThingOutWE :=
  { iotId := .vna, name := .vna, description := .vna, properties := .vna }

def dummySensorWE : SensorWE :=
  { name := .vna, description := .vna, encodingType := .vna, metadata := .vna }

def dummyOPropWE : OPropWE :=
  { name := .vna, description := .vna, definition := .vna }

/-- The spec's attachment policy for one Thing (used as the right-hand
side of the characterization theorems): a Thing with the assigned id
`tid` receives exactly the Locations and Datastreams whose `thing_id`
foreign key equals `tid`, the Datastreams in resolved form. -/
def mkThingOutWE (sd : StaData) (tid : Val) (t : ThingWE) : ThingOutWE :=
  let locs := sd.locations.filter (fun l => fkMatch l.thing tid)
  let matched := sd.datastreams.filter (fun d => fkMatch d.thing tid)
  { iotId := tid, name := t.name, description := t.description,
    properties := t.properties,
    locations := if locs.isEmpty then none else some locs,
    datastreams :=
      if matched.isEmpty then none else some (matched.map (resolveDsWE sd)) }

/-- The spec's output shape for the Things list, positional ids
starting at `k + 1`. -/
def specOutWE (sd : StaData) : Nat → List ThingWE → List ThingOutWE
  | _, [] => []
  | k, t :: ts =>
    mkThingOutWE sd (.vint ((k : Int) + 1)) t :: specOutWE sd (k + 1) ts

/-! Name-erasure maps: the only field of each normalized entity that
can depend on the uuid stream is its defaulted `name`. -/

def stripThingWE (t : ThingWE) : ThingWE := { t with name := .vna }

def stripLocationWE (l : LocationWE) : LocationWE := { l with name := .vna }

def stripOPropWE (p : OPropWE) : OPropWE := { p with name := .vna }

def stripSensorWE (s : SensorWE) : SensorWE := { s with name := .vna }

def stripDatastreamWE (d : DatastreamWE) : DatastreamWE := { d with name := .vna }

/-- Two runs related pointwise: equal errors, or documents related by
`R`. -/
def RelExcept {β : Type} (R : β → β → Prop) :
    Except String β → Except String β → Prop
  | .error e₁, .error e₂ => e₁ = e₂
  | .ok a, .ok b => R a b
  | _, _ => False

/-! ## Helper lemmas -/

theorem Store.lookup_push_self (s : Store α) (k : String) (v : α)
    (h : s.lookup k = none) : (s.push k v).lookup k = some v := by
  induction s with
  | nil => simp [Store.lookup, Store.push, List.find?]
  | cons p rest ih =>
    by_cases hk : p.1 = k
    · simp [Store.lookup, List.find?_cons, hk] at h
    · simp only [Store.lookup, Store.push, List.cons_append, List.find?_cons,
        decide_eq_true_eq, hk, if_false, ite_false] at h ⊢
      exact ih h

theorem createThingC_lookup (st : StateC) (idMs category : String) :
    ((createThingC st idMs category).2).things.lookup idMs =
      some (createThingC st idMs category).1 := by
  unfold createThingC
  cases h : st.things.lookup idMs with
  | some t => simp [h]
  | none => simp [h, Store.lookup_push_self _ _ _ h]

theorem createThingC_of_lookup (st : StateC) (idMs category : String)
    (t : ThingC) (h : st.things.lookup idMs = some t) :
    createThingC st idMs category = (t, st) := by
  unfold createThingC
  rw [h]

theorem createLocationC_lookup (st : StateC) (thingId : String) :
    ((createLocationC st thingId).2).locations.lookup thingId =
      some (createLocationC st thingId).1 := by
  unfold createLocationC
  cases h : st.locations.lookup thingId with
  | some l => simp [h]
  | none => simp [h, Store.lookup_push_self _ _ _ h]

theorem createLocationC_of_lookup (st : StateC) (thingId : String)
    (l : LocationC) (h : st.locations.lookup thingId = some l) :
    createLocationC st thingId = (l, st) := by
  unfold createLocationC
  rw [h]

theorem createSensorC_lookup (st : StateC) (p : String) :
    ((createSensorC st p).2).sensors.lookup p =
      some (createSensorC st p).1 := by
  unfold createSensorC
  cases h : st.sensors.lookup p with
  | some s => simp [h]
  | none => simp [h, Store.lookup_push_self _ _ _ h]

theorem createSensorC_of_lookup (st : StateC) (p : String)
    (s : Sensor) (h : st.sensors.lookup p = some s) :
    createSensorC st p = (s, st) := by
  unfold createSensorC
  rw [h]

theorem createObservedPropertyC_lookup (st : StateC) (p : String) :
    ((createObservedPropertyC st p).2).observedProperties.lookup p =
      some (createObservedPropertyC st p).1 := by
  unfold createObservedPropertyC
  cases h : st.observedProperties.lookup p with
  | some o => simp [h]
  | none => simp [h, Store.lookup_push_self _ _ _ h]

theorem createObservedPropertyC_of_lookup (st : StateC) (p : String)
    (o : OProp) (h : st.observedProperties.lookup p = some o) :
    createObservedPropertyC st p = (o, st) := by
  unfold createObservedPropertyC
  rw [h]

theorem createSensorC_datastreams (st : StateC) (p : String) :
    ((createSensorC st p).2).datastreams = st.datastreams := by
  unfold createSensorC
  cases h : st.sensors.lookup p <;> simp [h]

theorem createObservedPropertyC_datastreams (st : StateC) (p : String) :
    ((createObservedPropertyC st p).2).datastreams = st.datastreams := by
  unfold createObservedPropertyC
  cases h : st.observedProperties.lookup p <;> simp [h]

theorem createDatastreamC_lookup (st : StateC) (thingId p : String) :
    ((createDatastreamC st thingId p).2).datastreams.lookup
        (thingId ++ "_" ++ p) =
      some (createDatastreamC st thingId p).1 := by
  unfold createDatastreamC
  cases h : st.datastreams.lookup (thingId ++ "_" ++ p) with
  | some d => simp [h]
  | none =>
    simp only [h]
    have h1 :
        ((createObservedPropertyC (createSensorC st p).2 p).2).datastreams =
          st.datastreams := by
      rw [createObservedPropertyC_datastreams, createSensorC_datastreams]
    simp only [h1]
    exact Store.lookup_push_self _ _ _ h

theorem createDatastreamC_of_lookup (st : StateC) (thingId p : String)
    (d : DatastreamC)
    (h : st.datastreams.lookup (thingId ++ "_" ++ p) = some d) :
    createDatastreamC st thingId p = (d, st) := by
  unfold createDatastreamC
  simp only [h]

/-! ## Claim theorems -/

/-- C7: for every natural key, registering (create-or-get) an entity of
any of the five types a second time under the same key creates no new
entity and returns the previously created entity object unchanged: the
second call yields exactly the first call's entity and leaves the whole
state untouched. -/
theorem c7_create_or_get_idempotent (st : StateC)
    (idMs c₁ c₂ thingId p : String) :
    createThingC (createThingC st idMs c₁).2 idMs c₂ =
      ((createThingC st idMs c₁).1, (createThingC st idMs c₁).2) ∧
    createLocationC (createLocationC st thingId).2 thingId =
      ((createLocationC st thingId).1, (createLocationC st thingId).2) ∧
    createSensorC (createSensorC st p).2 p =
      ((createSensorC st p).1, (createSensorC st p).2) ∧
    createObservedPropertyC (createObservedPropertyC st p).2 p =
      ((createObservedPropertyC st p).1, (createObservedPropertyC st p).2) ∧
    createDatastreamC (createDatastreamC st thingId p).2 thingId p =
      ((createDatastreamC st thingId p).1, (createDatastreamC st thingId p).2) := by
  refine ⟨?_, ?_, ?_, ?_, ?_⟩
  · exact createThingC_of_lookup _ _ _ _ (createThingC_lookup st idMs c₁)
  · exact createLocationC_of_lookup _ _ _ (createLocationC_lookup st thingId)
  · exact createSensorC_of_lookup _ _ _ (createSensorC_lookup st p)
  · exact createObservedPropertyC_of_lookup _ _ _ (createObservedPropertyC_lookup st p)
  · exact createDatastreamC_of_lookup _ _ _ _ (createDatastreamC_lookup st thingId p)

/-- C5: a measurement code absent from the static `unit_mapping` never
raises: the freshly created ObservedProperty carries the code itself as
its name and a definition URI ending in the code, and the freshly
created Datastream carries the degenerate `unitOfMeasurement`
`{name: "Unknown", symbol: "", definition: "ucum:"}`.  (The creators
are total functions, so no error is possible.) -/
theorem c5_unknown_code_fallback (st st₂ : StateC) (code thingId : String)
    (hmap : unitMapping.lookup code = none)
    (hop : st.observedProperties.lookup code = none)
    (hds : st₂.datastreams.lookup (thingId ++ "_" ++ code) = none) :
    (createObservedPropertyC st code).1.name = code ∧
    (createObservedPropertyC st code).1.definition =
      "http://example.org/properties/" ++ code ∧
    (createDatastreamC st₂ thingId code).1.unitOfMeasurement = fallbackUoM := by
  refine ⟨?_, ?_, ?_⟩
  · unfold createObservedPropertyC
    simp [hop, hmap]
  · unfold createObservedPropertyC
    simp [hop, hmap]
  · unfold createDatastreamC
    simp [hds, hmap]

/-- Witness for C5 at the unrecognized code `"FOO"` on fresh stores. -/
theorem c5_unknown_code_fallback_witness :
    unitMapping.lookup "FOO" = none ∧
    ((createObservedPropertyC initStateC "FOO").1.name = "FOO" ∧
     (createObservedPropertyC initStateC "FOO").1.definition =
       "http://example.org/properties/" ++ "FOO" ∧
     (createDatastreamC initStateC "thing_1" "FOO").1.unitOfMeasurement =
       fallbackUoM) :=
  ⟨by decide,
   c5_unknown_code_fallback initStateC initStateC "FOO" "thing_1"
     (by decide) (by decide) (by decide)⟩

theorem createThingC_observations (st : StateC) (i c : String) :
    ((createThingC st i c).2).observations = st.observations := by
  unfold createThingC
  cases h : st.things.lookup i <;> simp [h]

theorem createThingC_datastreams (st : StateC) (i c : String) :
    ((createThingC st i c).2).datastreams = st.datastreams := by
  unfold createThingC
  cases h : st.things.lookup i <;> simp [h]

theorem createLocationC_observations (st : StateC) (tid : String) :
    ((createLocationC st tid).2).observations = st.observations := by
  unfold createLocationC
  cases h : st.locations.lookup tid <;> simp [h]

theorem createLocationC_datastreams (st : StateC) (tid : String) :
    ((createLocationC st tid).2).datastreams = st.datastreams := by
  unfold createLocationC
  cases h : st.locations.lookup tid <;> simp [h]

theorem createLocationC_things (st : StateC) (tid : String) :
    ((createLocationC st tid).2).things = st.things := by
  unfold createLocationC
  cases h : st.locations.lookup tid <;> simp [h]

/-- C3 (amended): a wide-shape row whose timestamp value is missing
yields no Observation and leaves the datastream store untouched, but it
is not skipped entirely — its Thing and that Thing's Location are
created (or retained) before the timestamp is ever inspected; a missing
identifier value does not skip the row at all, it is stringified to
`"nan"` and processed normally. -/
theorem c3_missing_timestamp_no_observation_but_thing_created
    (cols : List String) (idCol tsCol category : String) (st : StateC)
    (row : Row) (hts : pdIsna (rowGet row tsCol) = true) :
    processRowC cols idCol tsCol category st row =
      .ok (afterThingLocationC st (pyStr (rowGet row idCol)) category) ∧
    (afterThingLocationC st (pyStr (rowGet row idCol)) category).observations =
      st.observations ∧
    (afterThingLocationC st (pyStr (rowGet row idCol)) category).datastreams =
      st.datastreams ∧
    ((afterThingLocationC st (pyStr (rowGet row idCol)) category).things.lookup
        (pyStr (rowGet row idCol))).isSome = true ∧
    ((afterThingLocationC st (pyStr (rowGet row idCol)) category).locations.lookup
        ((createThingC st (pyStr (rowGet row idCol)) category).1.iotId)).isSome =
      true := by
  refine ⟨?_, ?_, ?_, ?_, ?_⟩
  · unfold processRowC afterThingLocationC
    simp [hts]
  · unfold afterThingLocationC
    rw [createLocationC_observations, createThingC_observations]
  · unfold afterThingLocationC
    rw [createLocationC_datastreams, createThingC_datastreams]
  · unfold afterThingLocationC
    rw [createLocationC_things, createThingC_lookup]
    rfl
  · unfold afterThingLocationC
    rw [createLocationC_lookup]
    rfl

/-- Witness for the amended C3 at a concrete row with a present
identifier and a missing timestamp. -/
theorem c3_missing_timestamp_witness :
    pdIsna (rowGet rowC3w "DATUM") = true ∧
    (processRowC ["ID_MS", "DATUM", "TEMP x"] "ID_MS" "DATUM" "Generic Sensor"
        initStateC rowC3w =
      .ok (afterThingLocationC initStateC
            (pyStr (rowGet rowC3w "ID_MS")) "Generic Sensor") ∧
    (afterThingLocationC initStateC (pyStr (rowGet rowC3w "ID_MS"))
        "Generic Sensor").observations = initStateC.observations ∧
    (afterThingLocationC initStateC (pyStr (rowGet rowC3w "ID_MS"))
        "Generic Sensor").datastreams = initStateC.datastreams ∧
    ((afterThingLocationC initStateC (pyStr (rowGet rowC3w "ID_MS"))
        "Generic Sensor").things.lookup (pyStr (rowGet rowC3w "ID_MS"))).isSome =
      true ∧
    ((afterThingLocationC initStateC (pyStr (rowGet rowC3w "ID_MS"))
        "Generic Sensor").locations.lookup
        ((createThingC initStateC (pyStr (rowGet rowC3w "ID_MS"))
            "Generic Sensor").1.iotId)).isSome = true) :=
  ⟨by decide,
   c3_missing_timestamp_no_observation_but_thing_created
     ["ID_MS", "DATUM", "TEMP x"] "ID_MS" "DATUM" "Generic Sensor"
     initStateC rowC3w (by decide)⟩

/-- C3 (counterexample): on `wbC3` — whose first row misses its
timestamp value and whose second row misses its identifier value — the
claim's "skipped entirely" fails: the run creates a Thing (with a
Location each) for the missing-timestamp row and for the stringified
`"nan"` identifier, and emits one Observation from the
missing-identifier row. -/
theorem c3_defective_rows_not_skipped_counterexample :
    docThingLocC (excelToSensorthingsC wbC3) =
      [("thing_7", 1), ("thing_nan", 1)] ∧
    docObsCountC (excelToSensorthingsC wbC3) = 1 ∧
    docThingLocC (excelToSensorthingsC wbC3) ≠ [] := by
  refine ⟨by decide, by decide, by decide⟩

/-- C1: on `wbC1` — one station, one row with a `TEMP` and a `WINDR`
reading — the assembler of `excel_to_sta_customized.py` attaches both
Observations to both Datastreams: the Observation created for the
`WINDR` Datastream also appears under the `TEMP` Datastream, so an
Observation does not appear under exactly one Datastream. -/
theorem c1_observation_duplicated_onto_every_datastream :
    docDsObsTableC (excelToSensorthingsC wbC1) =
      [[("ds_thing_7_TEMP",
         some [⟨.str "T1", .str "T1", mkRat 3 2⟩, ⟨.str "T1", .str "T1", mkRat 5 2⟩]),
        ("ds_thing_7_WINDR",
         some [⟨.str "T1", .str "T1", mkRat 3 2⟩, ⟨.str "T1", .str "T1", mkRat 5 2⟩])]] := by
  decide

/-- C2: on `wbC2` — stations `"1"` and `"10"` — the assembler of
`excel_to_sta_customized.py` attaches Datastreams by
`datastream_key.startswith(thing_id)`, so the Thing with id `thing_1`
also receives the Datastream `ds_thing_10_TEMP` that belongs to
`thing_10`. -/
theorem c2_datastreams_attached_by_string_prefix :
    docThingDsIdsC (excelToSensorthingsC wbC2) =
      [("thing_1", ["ds_thing_1_TEMP", "ds_thing_10_TEMP"]),
       ("thing_10", ["ds_thing_10_TEMP"])] := by
  decide

theorem isErr_bind {α β : Type} (x : Except String α)
    (g : α → Except String β) (h : isErr x = true) :
    isErr (x >>= g) = true := by
  cases x with
  | error e => rfl
  | ok a => simp [isErr] at h

theorem foldlM_isErr {α σ : Type} (f : σ → α → Except String σ)
    (l : List α) (a : α) (ha : a ∈ l)
    (hf : ∀ s, isErr (f s a) = true) :
    ∀ s, isErr (l.foldlM f s) = true := by
  induction l with
  | nil => cases ha
  | cons x xs ih =>
    intro s
    rw [List.foldlM_cons]
    rcases List.mem_cons.mp ha with h | h
    · subst h
      exact isErr_bind _ _ (hf s)
    · cases hx : f s x with
      | error e => rfl
      | ok s' => exact ih h s'

theorem processCellC_isErr (idCol tsCol thingId : String) (ts : Cell)
    (row : Row) (c : String) (v : Cell)
    (h1 : c ≠ idCol) (h2 : c ≠ tsCol)
    (h3 : strStartsWith c "Unnamed" = false)
    (hv : rowGet row c = v) (hna : pdIsna v = false)
    (herr : isErr (pyFloat v) = true) :
    ∀ st, isErr (processCellC idCol tsCol thingId ts row st c) = true := by
  intro st
  unfold processCellC
  have hcond : ¬(c = idCol ∨ c = tsCol ∨ strStartsWith c "Unnamed" = true) := by
    simp [h1, h2, h3]
  rw [if_neg hcond, hv]
  simp only [hna, Bool.false_eq_true, if_false, ite_false]
  cases hp : pyFloat v with
  | error e => rfl
  | ok q =>
    rw [hp] at herr
    simp [isErr] at herr

theorem processRowC_isErr (cols : List String)
    (idCol tsCol category : String) (row : Row) (c : String) (v : Cell)
    (hc : c ∈ cols)
    (hts : pdIsna (rowGet row tsCol) = false)
    (h1 : c ≠ idCol) (h2 : c ≠ tsCol)
    (h3 : strStartsWith c "Unnamed" = false)
    (hv : rowGet row c = v) (hna : pdIsna v = false)
    (herr : isErr (pyFloat v) = true) :
    ∀ st, isErr (processRowC cols idCol tsCol category st row) = true := by
  intro st
  unfold processRowC
  simp only [hts, Bool.false_eq_true, if_false, ite_false]
  exact foldlM_isErr _ _ c hc
    (processCellC_isErr idCol tsCol _ _ row c v h1 h2 h3 hv hna herr) _

theorem processSheetC_isErr (sheetName : String) (df : Df) (row : Row)
    (c : String) (v : Cell)
    (hsheet : sheetName ≠ "LEGENDE")
    (hrow : row ∈ df.rows)
    (hc : c ∈ df.columns)
    (hts : pdIsna (rowGet row (tsColFor sheetName)) = false)
    (h1 : c ≠ "ID_MS") (h2 : c ≠ tsColFor sheetName)
    (h3 : strStartsWith c "Unnamed" = false)
    (hv : rowGet row c = v) (hna : pdIsna v = false)
    (herr : isErr (pyFloat v) = true) :
    ∀ st, isErr (processSheetC st sheetName df) = true := by
  intro st
  unfold processSheetC
  rw [if_neg hsheet]
  exact foldlM_isErr _ _ row hrow
    (fun s => processRowC_isErr df.columns "ID_MS" (tsColFor sheetName)
      (categoryFor sheetName) row c v hc hts h1 h2 h3 hv hna herr s) st

/-- C4: a wide-shape cell whose value is present but cannot be parsed
as a number makes the whole transform raise: the `ValueError` from
`float(value)` propagates through the row, sheet and workbook loops to
the caller, and no document is returned. -/
theorem c4_nonnumeric_value_error_propagates
    (excelData : List (String × Df)) (sheetName : String) (df : Df)
    (row : Row) (c : String) (v : Cell)
    (hin : (sheetName, df) ∈ excelData)
    (hsheet : sheetName ≠ "LEGENDE")
    (hrow : row ∈ df.rows)
    (hc : c ∈ df.columns)
    (hts : pdIsna (rowGet row (tsColFor sheetName)) = false)
    (h1 : c ≠ "ID_MS") (h2 : c ≠ tsColFor sheetName)
    (h3 : strStartsWith c "Unnamed" = false)
    (hv : rowGet row c = v) (hna : pdIsna v = false)
    (herr : isErr (pyFloat v) = true) :
    isErr (excelToSensorthingsC excelData) = true := by
  unfold excelToSensorthingsC
  exact isErr_bind _ _
    (foldlM_isErr (fun st p => processSheetC st p.1 p.2) excelData
      (sheetName, df) hin
      (fun s => processSheetC_isErr sheetName df row c v hsheet hrow hc hts
        h1 h2 h3 hv hna herr s)
      initStateC)

/-- Witness for C4: the workbook `wbC4` carries the unparsable
measurement value `"abc"`, and the transform returns an error. -/
theorem c4_nonnumeric_value_error_witness :
    isErr (pyFloat (.str "abc")) = true ∧
    isErr (excelToSensorthingsC wbC4) = true :=
  ⟨by decide,
   c4_nonnumeric_value_error_propagates wbC4 "DATA"
     { columns := ["ID_MS", "DATUM", "TEMP x"]
       rows := [[("ID_MS", .str "7"), ("DATUM", .str "T1"),
                 ("TEMP x", .str "abc")]] }
     [("ID_MS", .str "7"), ("DATUM", .str "T1"), ("TEMP x", .str "abc")]
     "TEMP x" (.str "abc")
     (by decide) (by decide) (by decide) (by decide) (by decide)
     (by decide) (by decide) (by decide) (by decide) (by decide) (by decide)⟩

theorem fvObsFor_datastream_none (obs : List ObservationF) (dsId : String) :
    ∀ o ∈ fvObsFor obs dsId, o.datastream = none := by
  intro o ho
  unfold fvObsFor at ho
  rcases List.mem_filterMap.mp ho with ⟨a, _, hfa⟩
  cases hd : a.datastream with
  | none => rw [hd] at hfa; simp at hfa
  | some did =>
    rw [hd] at hfa
    simp only at hfa
    split at hfa
    · cases hfa
      rfl
    · cases hfa

theorem fvProcessThing_obs (st : StateF) (t : ThingF) :
    ∀ d ∈ ((fvProcessThing st t).1.datastreams).getD [],
      ∀ o ∈ d.observations.getD [], o.datastream = none := by
  intro d hd o ho
  unfold fvProcessThing at hd
  simp only at hd
  set tds := st.datastreams.items.filterMap (fun q =>
    if strStartsWith q.1 t.iotId then
      let dsObs := fvObsFor st.observations q.2.iotId
      some { ds := q.2
             observations := if dsObs.isEmpty then none else some dsObs : DsOutF }
    else none) with htds
  by_cases hemp : tds.isEmpty
  · rw [if_pos hemp] at hd
    cases hd
  · rw [if_neg hemp] at hd
    simp only [Option.getD_some] at hd
    rcases List.mem_filterMap.mp hd with ⟨q, _, hq⟩
    by_cases hpre : strStartsWith q.1 t.iotId = true
    · rw [if_pos hpre] at hq
      simp only at hq
      cases hq
      by_cases ho2 : (fvObsFor st.observations q.2.iotId).isEmpty
      · simp only [ho2, if_pos, ite_true, Option.getD_none] at ho
        cases ho
      · simp only [ho2, Bool.false_eq_true, if_false, ite_false,
          Option.getD_some] at ho
        exact fvObsFor_datastream_none _ _ o ho
    · rw [if_neg hpre] at hq
      cases hq

theorem fvProcessThing_state (st : StateF) (t : ThingF) :
    (fvProcessThing st t).2 = st := rfl

theorem fvBuild_state (l : List (String × ThingF)) :
    ∀ st, (fvBuild st l).2 = st := by
  induction l with
  | nil => intro st; rfl
  | cons p rest ih =>
    intro st
    show (fvBuild (fvProcessThing st p.2).2 rest).2 = st
    rw [fvProcessThing_state]
    exact ih st

theorem fvBuild_mem (l : List (String × ThingF)) :
    ∀ st t, t ∈ (fvBuild st l).1 →
      ∃ p, p ∈ l ∧ t = (fvProcessThing st p.2).1 := by
  induction l with
  | nil => intro st t ht; cases ht
  | cons p rest ih =>
    intro st t ht
    have hshape : (fvBuild st (p :: rest)).1 =
        (fvProcessThing st p.2).1 :: (fvBuild st rest).1 := by
      show ((fvProcessThing st p.2).1 ::
        (fvBuild (fvProcessThing st p.2).2 rest).1, _).1 = _
      rw [fvProcessThing_state]
    rw [hshape] at ht
    rcases List.mem_cons.mp ht with h | h
    · exact ⟨p, List.mem_cons_self p rest, h⟩
    · rcases ih st t h with ⟨q, hq, hqt⟩
      exact ⟨q, List.mem_cons_of_mem p hq, hqt⟩

/-- C10: the assembly phase of `final_version_6things.py` does not
mutate the accumulated entity stores — the state after assembly equals
the state before (Things, Locations, Datastreams and the observations
list are untouched) — and the temporary `Datastream` back-reference is
removed only from the Observation copies placed in the document: every
Observation in the output carries no back-reference, while the stored
observations are unchanged. -/
theorem c10_assembly_does_not_mutate_stores (st : StateF) :
    (constructNestedF st).2 = st ∧
    (docObservationsF (constructNestedF st).1).all
      (fun o => o.datastream.isNone) = true := by
  constructor
  · unfold constructNestedF
    exact fvBuild_state st.things.items st
  · rw [List.all_eq_true]
    intro o ho
    unfold docObservationsF constructNestedF at ho
    simp only at ho
    rcases List.mem_flatMap.mp ho with ⟨t, ht, hto⟩
    rcases List.mem_flatMap.mp hto with ⟨d, hd, hdo⟩
    rcases fvBuild_mem st.things.items st t ht with ⟨p, _, rfl⟩
    have := fvProcessThing_obs st p.2 d hd o hdo
    rw [this]
    rfl

theorem resolveDsWE_thing (sd : StaData) (d : DatastreamWE) :
    (resolveDsWE sd d).thing = d.thing := rfl

theorem pyEq_vint_functional (v : Val) (a b : Int)
    (ha : pyEq v (.vint a) = true) (hb : pyEq v (.vint b) = true) : a = b := by
  cases v with
  | vna => simp [pyEq] at ha
  | vint n =>
    simp only [pyEq, beq_iff_eq] at ha hb
    omega
  | vnum q =>
    simp only [pyEq, beq_iff_eq] at ha hb
    have : ((a : Int) : Rat) = ((b : Int) : Rat) := by rw [← ha, ← hb]
    exact_mod_cast this
  | vstr s => simp [pyEq] at ha
  | vbool c =>
    simp only [pyEq, beq_iff_eq] at ha hb
    omega
  | vobj f => simp [pyEq] at ha
  | varr l => simp [pyEq] at ha

theorem fkMatch_vint_functional (fld : Option Val) (a b : Int)
    (ha : fkMatch fld (.vint a) = true) (hb : fkMatch fld (.vint b) = true) :
    a = b := by
  cases fld with
  | none => simp [fkMatch] at ha
  | some fid => exact pyEq_vint_functional fid a b ha hb

theorem filter_fkMatch_map (g : DatastreamWE → DatastreamWE)
    (hg : ∀ d, (g d).thing = d.thing) (tid : Val) :
    ∀ l : List DatastreamWE,
      (l.map g).filter (fun d => fkMatch d.thing tid) =
        (l.filter (fun d => fkMatch d.thing tid)).map g := by
  intro l
  induction l with
  | nil => rfl
  | cons d ds ih =>
    simp only [List.map_cons, List.filter_cons, hg d]
    by_cases h : fkMatch d.thing tid = true
    · simp [h, ih]
    · simp [h, ih]

theorem map_eq_self_of_mem {α : Type} (l : List α) (g : α → α)
    (h : ∀ a ∈ l, g a = a) : l.map g = l := by
  induction l with
  | nil => rfl
  | cons x xs ih =>
    simp only [List.map_cons]
    rw [h x (List.mem_cons_self x xs), ih (fun a ha => h a (List.mem_cons_of_mem x ha))]

theorem buildOutWE_eq_spec (sd : StaData) :
    ∀ (ts : List ThingWE) (k : Nat) (g : DatastreamWE → DatastreamWE),
      (∀ d, (g d).thing = d.thing) →
      (∀ d ∈ sd.datastreams, ∀ j : Int, (k : Int) < j →
        fkMatch d.thing (.vint j) = true → g d = d) →
      (∀ t ∈ ts, t.iotId = none) →
      buildOutWE sd k ts (sd.datastreams.map g) = specOutWE sd k ts := by
  intro ts
  induction ts with
  | nil => intro k g _ _ _; rfl
  | cons t ts ih =>
    intro k g hg hclean hpos
    have hiot : t.iotId = none := hpos t (List.mem_cons_self t ts)
    have hmatched :
        (sd.datastreams.map g).filter
            (fun d => fkMatch d.thing (.vint ((k : Int) + 1))) =
          sd.datastreams.filter
            (fun d => fkMatch d.thing (.vint ((k : Int) + 1))) := by
      rw [filter_fkMatch_map g hg]
      apply map_eq_self_of_mem
      intro d hdmem
      rcases List.mem_filter.mp hdmem with ⟨hdin, hdp⟩
      exact hclean d hdin ((k : Int) + 1) (by omega) (by simpa using hdp)
    have hstore :
        ((sd.datastreams.map g).map (fun d =>
            if fkMatch d.thing (.vint ((k : Int) + 1)) then resolveDsWE sd d
            else d)) =
          sd.datastreams.map (fun d =>
            if fkMatch d.thing (.vint ((k : Int) + 1)) then resolveDsWE sd d
            else g d) := by
      rw [List.map_map]
      apply List.map_congr_left
      intro d hdin
      simp only [Function.comp_apply, hg d]
      by_cases hp : fkMatch d.thing (.vint ((k : Int) + 1)) = true
      · rw [if_pos hp, if_pos hp, hclean d hdin ((k : Int) + 1) (by omega) hp]
      · rw [if_neg hp, if_neg hp]
    have hg' : ∀ d,
        ((fun d => if fkMatch d.thing (.vint ((k : Int) + 1)) then resolveDsWE sd d
          else g d) d).thing = d.thing := by
      intro d
      by_cases hp : fkMatch d.thing (.vint ((k : Int) + 1)) = true
      · simp only [hp, if_pos, ite_true, resolveDsWE_thing]
      · simp only [hp, Bool.false_eq_true, if_false, ite_false, hg d]
    have hclean' : ∀ d ∈ sd.datastreams, ∀ j : Int, ((k + 1 : Nat) : Int) < j →
        fkMatch d.thing (.vint j) = true →
        (fun d => if fkMatch d.thing (.vint ((k : Int) + 1)) then resolveDsWE sd d
          else g d) d = d := by
      intro d hdin j hj hp
      by_cases hq : fkMatch d.thing (.vint ((k : Int) + 1)) = true
      · have := fkMatch_vint_functional d.thing _ _ hq hp
        omega
      · simp only [hq, Bool.false_eq_true, if_false, ite_false]
        exact hclean d hdin j (by omega) hp
    show buildOutWE sd k (t :: ts) (sd.datastreams.map g) = specOutWE sd k (t :: ts)
    simp only [buildOutWE, specOutWE, hiot, Option.getD_none, hmatched, hstore,
      mkThingOutWE, List.cons.injEq]
    exact ⟨trivial, ih (k + 1) _ hg' hclean'
      (fun x hx => hpos x (List.mem_cons_of_mem t hx))⟩

theorem constructNestedWE_eq_spec (sd : StaData)
    (hpos : ∀ t ∈ sd.things, t.iotId = none) :
    constructNestedWE sd = ⟨specOutWE sd 0 sd.things⟩ := by
  unfold constructNestedWE
  have h := buildOutWE_eq_spec sd sd.things 0 id (fun _ => rfl)
    (fun d _ j _ _ => rfl) hpos
  rw [List.map_id] at h
  rw [h]

theorem specOutWE_length (sd : StaData) :
    ∀ (ts : List ThingWE) (k : Nat), (specOutWE sd k ts).length = ts.length := by
  intro ts
  induction ts with
  | nil => intro k; rfl
  | cons t ts ih => intro k; simp [specOutWE, ih]

theorem specOutWE_getD (sd : StaData) :
    ∀ (ts : List ThingWE) (k i : Nat), i < ts.length →
      (specOutWE sd k ts).getD i dummyThingOutWE =
        mkThingOutWE sd (.vint ((k : Int) + (i : Int) + 1))
          (ts.getD i dummyThingWE) := by
  intro ts
  induction ts with
  | nil => intro k i hi; cases hi
  | cons t ts ih =>
    intro k i hi
    cases i with
    | zero => simp [specOutWE, List.getD_cons_zero]
    | succ i =>
      simp only [specOutWE, List.getD_cons_succ]
      rw [ih (k + 1) i (by simpa using hi)]
      have hcast : ((k + 1 : Nat) : Int) + (i : Int) + 1 =
          (k : Int) + ((i + 1 : Nat) : Int) + 1 := by push_cast; omega
      rw [hcast]

theorem find?_some_first {α : Type} (p : α → Bool) (d₀ : α) :
    ∀ (l : List α) (a : α), l.find? p = some a →
      ∃ i, i < l.length ∧ l.getD i d₀ = a ∧ p a = true ∧
        ∀ j, j < i → p (l.getD j d₀) = false := by
  intro l
  induction l with
  | nil => intro a h; simp [List.find?] at h
  | cons x xs ih =>
    intro a h
    by_cases hp : p x = true
    · rw [List.find?_cons_of_pos _ hp] at h
      cases h
      exact ⟨0, by simp, by simp, hp, fun j hj => absurd hj (Nat.not_lt_zero j)⟩
    · rw [List.find?_cons_of_neg _ (by simpa using hp)] at h
      rcases ih a h with ⟨i, hi, hget, hpa, hfirst⟩
      refine ⟨i + 1, by simpa using hi, by simpa using hget, hpa, ?_⟩
      intro j hj
      cases j with
      | zero => simpa using hp
      | succ j => simpa using hfirst j (by omega)

/-- C9: in the normalized pipeline's assembler, a Things row carrying
no `@iot.id` is assigned the positional identifier `one plus the number
of Things already emitted` (its 1-based index), and the Locations and
Datastreams nested under it are exactly those whose `thing_id`
foreign-key value equals that positional identifier. -/
theorem c9_positional_id_and_exact_fk_attachment (sd : StaData)
    (hpos : ∀ t ∈ sd.things, t.iotId = none)
    (i : Nat) (hi : i < sd.things.length) :
    (constructNestedWE sd).things.length = sd.things.length ∧
    ((constructNestedWE sd).things.getD i dummyThingOutWE).iotId =
      .vint ((i : Int) + 1) ∧
    ((constructNestedWE sd).things.getD i dummyThingOutWE).locations =
      (let m := sd.locations.filter (fun l =>
         fkMatch l.thing (.vint ((i : Int) + 1)))
       if m.isEmpty then none else some m) ∧
    ((constructNestedWE sd).things.getD i dummyThingOutWE).datastreams =
      (let m := sd.datastreams.filter (fun d =>
         fkMatch d.thing (.vint ((i : Int) + 1)))
       if m.isEmpty then none else some (m.map (resolveDsWE sd))) := by
  have hspec := constructNestedWE_eq_spec sd hpos
  have hget : (constructNestedWE sd).things.getD i dummyThingOutWE =
      mkThingOutWE sd (.vint ((i : Int) + 1)) (sd.things.getD i dummyThingWE) := by
    rw [hspec]
    have h := specOutWE_getD sd sd.things 0 i hi
    have hcast : ((0 : Nat) : Int) + (i : Int) + 1 = (i : Int) + 1 := by omega
    rw [hcast] at h
    exact h
  refine ⟨?_, ?_, ?_, ?_⟩
  · rw [hspec]
    exact specOutWE_length sd sd.things 0
  · rw [hget]; rfl
  · rw [hget]; rfl
  · rw [hget]; rfl

/-- Witness for C9 at `sdC9`: the second Things row (index 1) gets
positional id 2, and exactly the Location with `thing_id = 2` (an
`int`) and the Datastream with `thing_id = 2.0` (a `float`, equal under
Python `==`) are attached to it. -/
theorem c9_positional_id_witness :
    (constructNestedWE sdC9).things.length = 2 ∧
    ((constructNestedWE sdC9).things.getD 1 dummyThingOutWE).iotId =
      .vint 2 ∧
    ((constructNestedWE sdC9).things.getD 1 dummyThingOutWE).locations =
      some [locC9] ∧
    ((constructNestedWE sdC9).things.getD 1 dummyThingOutWE).datastreams =
      some [resolveDsWE sdC9 dsC9] := by
  have hpos : ∀ t ∈ sdC9.things, t.iotId = none := by
    intro t ht
    rcases List.mem_cons.mp ht with rfl | ht
    · rfl
    rcases List.mem_cons.mp ht with rfl | ht
    · rfl
    cases ht
  have h := c9_positional_id_and_exact_fk_attachment sdC9 hpos 1 (by decide)
  refine ⟨?_, ?_, ?_, ?_⟩
  · rw [h.1]
    rfl
  · rw [h.2.1]
    rfl
  · rw [h.2.2.1]
    rfl
  · rw [h.2.2.2]
    rfl


/-- C6: in the normalized pipeline's assembler, a Datastream whose
`thing_id` equals a Thing's assigned id is attached (in resolved form)
under exactly that Thing; its `sensor_id` (resp.
`observed_property_id`) reference resolves to the first entity of the
target collection whose assigned `@iot.id` equals the reference value,
and when no entity matches, the reference field keeps the raw fragment
`{"@iot.id": id}`; the Observations attached under it are exactly those
whose `datastream_id` fragment equals this Datastream's id.  The
assembler is a total function, so an unresolved reference never aborts
the run. -/
theorem c6_fk_resolution_first_match_or_fragment (sd : StaData)
    (hpos : ∀ t ∈ sd.things, t.iotId = none)
    (i : Nat) (hi : i < sd.things.length)
    (d : DatastreamWE) (hd : d ∈ sd.datastreams)
    (hmatch : fkMatch d.thing (.vint ((i : Int) + 1)) = true) :
    resolveDsWE sd d ∈
      ((constructNestedWE sd).things.getD i dummyThingOutWE).datastreams.getD [] ∧
    (∀ r : Val, d.sensor = some (.frag r) →
      ((∀ s ∈ sd.sensors, pyEqOpt s.iotId (some r) = false) ∧
        (resolveDsWE sd d).sensor = some (.frag r)) ∨
      (∃ j, j < sd.sensors.length ∧
        pyEqOpt (sd.sensors.getD j dummySensorWE).iotId (some r) = true ∧
        (resolveDsWE sd d).sensor =
          some (.ent (sd.sensors.getD j dummySensorWE)) ∧
        ∀ j', j' < j →
          pyEqOpt (sd.sensors.getD j' dummySensorWE).iotId (some r) = false)) ∧
    (∀ r : Val, d.observedProperty = some (.frag r) →
      ((∀ p ∈ sd.observedProperties, pyEqOpt p.iotId (some r) = false) ∧
        (resolveDsWE sd d).observedProperty = some (.frag r)) ∨
      (∃ j, j < sd.observedProperties.length ∧
        pyEqOpt (sd.observedProperties.getD j dummyOPropWE).iotId (some r) = true ∧
        (resolveDsWE sd d).observedProperty =
          some (.ent (sd.observedProperties.getD j dummyOPropWE)) ∧
        ∀ j', j' < j →
          pyEqOpt (sd.observedProperties.getD j' dummyOPropWE).iotId (some r) =
            false)) ∧
    ((resolveDsWE sd d).observations =
      (let m := sd.observations.filter (fun o =>
         match o.datastream with
         | some fid => pyEqOpt (some fid) d.iotId
         | none => false)
       if m.isEmpty then d.observations else some m)) := by
  refine ⟨?_, ?_, ?_, ?_⟩
  · have h := (c9_positional_id_and_exact_fk_attachment sd hpos i hi).2.2.2
    rw [h]
    have hmem : d ∈ sd.datastreams.filter (fun d =>
        fkMatch d.thing (.vint ((i : Int) + 1))) :=
      List.mem_filter.mpr ⟨hd, hmatch⟩
    have hne : (sd.datastreams.filter (fun d =>
        fkMatch d.thing (.vint ((i : Int) + 1)))).isEmpty = false := by
      cases hl : sd.datastreams.filter (fun d =>
        fkMatch d.thing (.vint ((i : Int) + 1))) with
      | nil => rw [hl] at hmem; cases hmem
      | cons a l => rfl
    simp only [hne, Bool.false_eq_true, if_false, ite_false, Option.getD_some]
    exact List.mem_map_of_mem (resolveDsWE sd) hmem
  · intro r hr
    unfold resolveDsWE
    simp only [hr]
    cases hfind : sd.sensors.find? (fun s => pyEqOpt s.iotId (refIdS (.frag r))) with
    | none =>
      left
      constructor
      · intro s hs
        have := List.find?_eq_none.mp hfind s hs
        simpa [refIdS] using this
      · rfl
    | some s =>
      right
      rcases find?_some_first _ dummySensorWE sd.sensors s hfind with
        ⟨j, hj, hget, hps, hfirst⟩
      refine ⟨j, hj, ?_, ?_, ?_⟩
      · rw [hget]; simpa [refIdS] using hps
      · rw [hget]
      · intro j' hj'
        simpa [refIdS] using hfirst j' hj'
  · intro r hr
    unfold resolveDsWE
    simp only [hr]
    cases hfind : sd.observedProperties.find?
        (fun p => pyEqOpt p.iotId (refIdO (.frag r))) with
    | none =>
      left
      constructor
      · intro p hp
        have := List.find?_eq_none.mp hfind p hp
        simpa [refIdO] using this
      · rfl
    | some p =>
      right
      rcases find?_some_first _ dummyOPropWE sd.observedProperties p hfind with
        ⟨j, hj, hget, hpp, hfirst⟩
      refine ⟨j, hj, ?_, ?_, ?_⟩
      · rw [hget]; simpa [refIdO] using hpp
      · rw [hget]
      · intro j' hj'
        simpa [refIdO] using hfirst j' hj'
  · rfl

/-- Witness for C6: the spec's scenario `sdC6` — the Datastream with
`thing_id = 1` and `sensor_id = 9` is attached under the sole Thing
(positional id 1), and since no Sensor has id 9, its `Sensor` field
keeps the raw fragment `{"@iot.id": 9}` while the run still produces a
document. -/
theorem c6_fk_resolution_witness :
    resolveDsWE sdC6 dsC6 ∈
      ((constructNestedWE sdC6).things.getD 0 dummyThingOutWE).datastreams.getD [] ∧
    (resolveDsWE sdC6 dsC6).sensor = some (.frag (.vint 9)) := by
  have hpos : ∀ t ∈ sdC6.things, t.iotId = none := by
    intro t ht
    rcases List.mem_cons.mp ht with rfl | ht
    · rfl
    cases ht
  have h := c6_fk_resolution_first_match_or_fragment sdC6 hpos 0 (by decide)
    dsC6 (List.mem_cons_self dsC6 []) (by decide)
  refine ⟨h.1, ?_⟩
  rcases h.2.1 (.vint 9) rfl with ⟨_, hfrag⟩ | ⟨j, hj, _, _, _⟩
  · exact hfrag
  · exact absurd hj (Nat.not_lt_zero j)

theorem relExcept_eq {β : Type} (x y : Except String β)
    (h : RelExcept Eq x y) : x = y := by
  cases x with
  | error e₁ =>
    cases y with
    | error e₂ => rw [show e₁ = e₂ from h]
    | ok b => exact absurd h (by simp [RelExcept])
  | ok a =>
    cases y with
    | error e₂ => exact absurd h (by simp [RelExcept])
    | ok b => rw [show a = b from h]

theorem bind_rel {α β : Type} (R : β → β → Prop) (strip : α → α)
    (b₁ b₂ : Except String (List α × Nat))
    (h : b₁.map (fun p => p.1.map strip) = b₂.map (fun p => p.1.map strip))
    (G₁ G₂ : List α × Nat → Except String β)
    (hg : ∀ p₁ p₂ : List α × Nat, p₁.1.map strip = p₂.1.map strip →
      RelExcept R (G₁ p₁) (G₂ p₂)) :
    RelExcept R (b₁ >>= G₁) (b₂ >>= G₂) := by
  cases b₁ with
  | error e₁ =>
    cases b₂ with
    | error e₂ =>
      have h' : e₁ = e₂ := by simpa [Except.map] using h
      exact h'
    | ok p₂ => simp [Except.map] at h
  | ok p₁ =>
    cases b₂ with
    | error e₂ => simp [Except.map] at h
    | ok p₂ =>
      have h' : p₁.1.map strip = p₂.1.map strip := by simpa [Except.map] using h
      exact hg p₁ p₂ h'

theorem bind_rel_same {β γ : Type} (R : β → β → Prop) (b : Except String γ)
    (G₁ G₂ : γ → Except String β) (hg : ∀ x, RelExcept R (G₁ x) (G₂ x)) :
    RelExcept R (b >>= G₁) (b >>= G₂) := by
  cases b with
  | error e => rfl
  | ok x => exact hg x

theorem cons_bind_strip {α : Type} (strip : α → α) (x₁ x₂ : α)
    (hx : strip x₁ = strip x₂) (r₁ r₂ : Except String (List α × Nat))
    (hr : r₁.map (fun p => p.1.map strip) = r₂.map (fun p => p.1.map strip)) :
    ((r₁ >>= fun p => pure (x₁ :: p.1, p.2)) : Except String (List α × Nat)).map
        (fun p => p.1.map strip) =
      ((r₂ >>= fun p => pure (x₂ :: p.1, p.2)) : Except String (List α × Nat)).map
        (fun p => p.1.map strip) := by
  cases r₁ with
  | error e₁ =>
    cases r₂ with
    | error e₂ =>
      have hr' : e₁ = e₂ := by simpa [Except.map] using hr
      rw [hr']
      rfl
    | ok p₂ => simp [Except.map] at hr
  | ok p₁ =>
    cases r₂ with
    | error e₂ => simp [Except.map] at hr
    | ok p₂ =>
      have hr' : p₁.1.map strip = p₂.1.map strip := by simpa [Except.map] using hr
      show Except.ok ((x₁ :: p₁.1).map strip) = Except.ok ((x₂ :: p₂.1).map strip)
      simp only [List.map_cons, hx, hr']

theorem buildRowsWE_strip {α : Type}
    (buildRow : (Nat → String) → Nat → VRow → Except String α)
    (strip : α → α) (f₁ f₂ : Nat → String) :
    ∀ rows : List VRow,
      (∀ row ∈ rows, ∀ m₁ m₂ : Nat,
        (buildRow f₁ m₁ row).map strip = (buildRow f₂ m₂ row).map strip) →
      ∀ n₁ n₂ : Nat,
        (buildRowsWE buildRow f₁ n₁ rows).map (fun p => p.1.map strip) =
          (buildRowsWE buildRow f₂ n₂ rows).map (fun p => p.1.map strip) := by
  intro rows
  induction rows with
  | nil => intro _ n₁ n₂; rfl
  | cons row rest ih =>
    intro hrow n₁ n₂
    have h1 := hrow row (List.mem_cons_self row rest) n₁ n₂
    have ih' := ih (fun r hr => hrow r (List.mem_cons_of_mem row hr)) (n₁ + 1) (n₂ + 1)
    simp only [buildRowsWE]
    cases hb₁ : buildRow f₁ n₁ row with
    | error e₁ =>
      cases hb₂ : buildRow f₂ n₂ row with
      | error e₂ =>
        rw [hb₁, hb₂] at h1
        have h1' : e₁ = e₂ := by simpa [Except.map] using h1
        rw [h1']
        rfl
      | ok x₂ =>
        rw [hb₁, hb₂] at h1
        simp [Except.map] at h1
    | ok x₁ =>
      cases hb₂ : buildRow f₂ n₂ row with
      | error e₂ =>
        rw [hb₁, hb₂] at h1
        simp [Except.map] at h1
      | ok x₂ =>
        rw [hb₁, hb₂] at h1
        have h1' : strip x₁ = strip x₂ := by simpa [Except.map] using h1
        exact cons_bind_strip strip x₁ x₂ h1' _ _ ih'

theorem buildThingRowWE_names (f₁ f₂ : Nat → String) (m₁ m₂ : Nat) (row : VRow)
    (h : (pyGet row "name").isSome = true) :
    buildThingRowWE f₁ m₁ row = buildThingRowWE f₂ m₂ row := by
  unfold buildThingRowWE
  cases hn : pyGet row "name" with
  | none => rw [hn] at h; cases h
  | some v => rfl

theorem buildLocationRowWE_names (f₁ f₂ : Nat → String) (m₁ m₂ : Nat) (row : VRow)
    (h : (pyGet row "name").isSome = true) :
    buildLocationRowWE f₁ m₁ row = buildLocationRowWE f₂ m₂ row := by
  unfold buildLocationRowWE
  cases hn : pyGet row "name" with
  | none => rw [hn] at h; cases h
  | some v => rfl

theorem buildOPropRowWE_names (f₁ f₂ : Nat → String) (m₁ m₂ : Nat) (row : VRow)
    (h : (pyGet row "name").isSome = true) :
    buildOPropRowWE f₁ m₁ row = buildOPropRowWE f₂ m₂ row := by
  unfold buildOPropRowWE
  cases hn : pyGet row "name" with
  | none => rw [hn] at h; cases h
  | some v => rfl

theorem buildSensorRowWE_names (f₁ f₂ : Nat → String) (m₁ m₂ : Nat) (row : VRow)
    (h : (pyGet row "name").isSome = true) :
    buildSensorRowWE f₁ m₁ row = buildSensorRowWE f₂ m₂ row := by
  unfold buildSensorRowWE
  cases hn : pyGet row "name" with
  | none => rw [hn] at h; cases h
  | some v => rfl

theorem buildDatastreamRowWE_names (f₁ f₂ : Nat → String) (m₁ m₂ : Nat)
    (row : VRow) (h : (pyGet row "name").isSome = true) :
    buildDatastreamRowWE f₁ m₁ row = buildDatastreamRowWE f₂ m₂ row := by
  unfold buildDatastreamRowWE
  cases hn : pyGet row "name" with
  | none => rw [hn] at h; cases h
  | some v => rfl

theorem exceptMap_bind {α β γ : Type} (f : β → γ) (x : Except String α)
    (g : α → Except String β) :
    (x >>= g).map f = x >>= fun a => (g a).map f := by
  cases x <;> rfl

theorem buildThingRowWE_strip (f₁ f₂ : Nat → String) (m₁ m₂ : Nat) (row : VRow) :
    (buildThingRowWE f₁ m₁ row).map stripThingWE =
      (buildThingRowWE f₂ m₂ row).map stripThingWE := by
  unfold buildThingRowWE
  simp only [exceptMap_bind]
  congr 1

theorem buildLocationRowWE_strip (f₁ f₂ : Nat → String) (m₁ m₂ : Nat)
    (row : VRow) :
    (buildLocationRowWE f₁ m₁ row).map stripLocationWE =
      (buildLocationRowWE f₂ m₂ row).map stripLocationWE := by
  unfold buildLocationRowWE
  simp only [exceptMap_bind]
  congr 1

theorem buildOPropRowWE_strip (f₁ f₂ : Nat → String) (m₁ m₂ : Nat)
    (row : VRow) :
    (buildOPropRowWE f₁ m₁ row).map stripOPropWE =
      (buildOPropRowWE f₂ m₂ row).map stripOPropWE := rfl

theorem buildSensorRowWE_strip (f₁ f₂ : Nat → String) (m₁ m₂ : Nat)
    (row : VRow) :
    (buildSensorRowWE f₁ m₁ row).map stripSensorWE =
      (buildSensorRowWE f₂ m₂ row).map stripSensorWE := rfl

theorem buildDatastreamRowWE_strip (f₁ f₂ : Nat → String) (m₁ m₂ : Nat)
    (row : VRow) :
    (buildDatastreamRowWE f₁ m₁ row).map stripDatastreamWE =
      (buildDatastreamRowWE f₂ m₂ row).map stripDatastreamWE := by
  unfold buildDatastreamRowWE
  simp only [exceptMap_bind]
  congr 1

theorem buildOutWE_map_iotId (sd₁ sd₂ : StaData) :
    ∀ ts₁ ts₂ : List ThingWE, ts₁.map (·.iotId) = ts₂.map (·.iotId) →
      ∀ (k : Nat) (d₁ d₂ : List DatastreamWE),
        (buildOutWE sd₁ k ts₁ d₁).map (·.iotId) =
          (buildOutWE sd₂ k ts₂ d₂).map (·.iotId) := by
  intro ts₁
  induction ts₁ with
  | nil =>
    intro ts₂ h k d₁ d₂
    cases ts₂ with
    | nil => rfl
    | cons t r => simp at h
  | cons t₁ r₁ ih =>
    intro ts₂ h k d₁ d₂
    cases ts₂ with
    | nil => simp at h
    | cons t₂ r₂ =>
      simp only [List.map_cons, List.cons.injEq] at h
      obtain ⟨hh, htl⟩ := h
      simp only [buildOutWE, List.map_cons, List.cons.injEq]
      exact ⟨by rw [hh], ih r₂ htl (k + 1) _ _⟩

theorem map_iotId_of_strip (l₁ l₂ : List ThingWE)
    (h : l₁.map stripThingWE = l₂.map stripThingWE) :
    l₁.map (·.iotId) = l₂.map (·.iotId) := by
  have h' := congrArg (List.map (fun t : ThingWE => t.iotId)) h
  simp only [List.map_map] at h'
  exact h'

theorem weDocThingIds_rel (x y : Except String DocWE)
    (h : RelExcept (fun d₁ d₂ : DocWE =>
      d₁.things.map (·.iotId) = d₂.things.map (·.iotId)) x y) :
    weDocThingIds x = weDocThingIds y := by
  cases x <;> cases y <;> simp [RelExcept] at h <;> simp [weDocThingIds, h]

theorem weRunIds (tables : List (String × List VRow)) (f₁ f₂ : Nat → String)
    (n₁ n₂ : Nat) :
    weDocThingIds (excelToSensorthingsWE f₁ n₁ tables) =
      weDocThingIds (excelToSensorthingsWE f₂ n₂ tables) := by
  apply weDocThingIds_rel
  unfold excelToSensorthingsWE
  apply bind_rel _ stripThingWE _ _
    (buildRowsWE_strip _ stripThingWE f₁ f₂ _
      (fun row _ m₁ m₂ => buildThingRowWE_strip f₁ f₂ m₁ m₂ row) n₁ n₂)
  intro ⟨lT₁, m₁⟩ ⟨lT₂, m₂⟩ hT
  apply bind_rel _ stripLocationWE _ _
    (buildRowsWE_strip _ stripLocationWE f₁ f₂ _
      (fun row _ k₁ k₂ => buildLocationRowWE_strip f₁ f₂ k₁ k₂ row) m₁ m₂)
  intro ⟨lL₁, k₁⟩ ⟨lL₂, k₂⟩ _
  apply bind_rel _ stripOPropWE _ _
    (buildRowsWE_strip _ stripOPropWE f₁ f₂ _
      (fun row _ a₁ a₂ => buildOPropRowWE_strip f₁ f₂ a₁ a₂ row) k₁ k₂)
  intro ⟨lO₁, a₁⟩ ⟨lO₂, a₂⟩ _
  apply bind_rel _ stripSensorWE _ _
    (buildRowsWE_strip _ stripSensorWE f₁ f₂ _
      (fun row _ b₁ b₂ => buildSensorRowWE_strip f₁ f₂ b₁ b₂ row) a₁ a₂)
  intro ⟨lS₁, b₁⟩ ⟨lS₂, b₂⟩ _
  apply bind_rel _ stripDatastreamWE _ _
    (buildRowsWE_strip _ stripDatastreamWE f₁ f₂ _
      (fun row _ c₁ c₂ => buildDatastreamRowWE_strip f₁ f₂ c₁ c₂ row) b₁ b₂)
  intro ⟨lD₁, c₁⟩ ⟨lD₂, c₂⟩ _
  apply bind_rel_same
  intro obs
  show (constructNestedWE _).things.map (·.iotId) =
    (constructNestedWE _).things.map (·.iotId)
  exact buildOutWE_map_iotId _ _ lT₁ lT₂ (map_iotId_of_strip lT₁ lT₂ hT) 0 _ _

theorem weRunEq_of_names (tables : List (String × List VRow))
    (f₁ f₂ : Nat → String) (n₁ n₂ : Nat)
    (h : namesPresentWE tables = true) :
    excelToSensorthingsWE f₁ n₁ tables = excelToSensorthingsWE f₂ n₂ tables := by
  have hsheet : ∀ nm ∈ ["Things", "Locations", "ObservedProperties",
      "Sensors", "Datastreams"],
      ∀ row ∈ tableRowsWE tables nm, (pyGet row "name").isSome = true := by
    intro nm hnm row hrow
    have := (List.all_eq_true.mp h) nm hnm
    exact (List.all_eq_true.mp this) row hrow
  have idmap : ∀ {α : Type} (x : Except String α), x.map id = x := by
    intro α x; cases x <;> rfl
  apply relExcept_eq
  unfold excelToSensorthingsWE
  apply bind_rel _ id _ _
    (buildRowsWE_strip _ id f₁ f₂ _
      (fun row hr m₁ m₂ => congrArg (Except.map id)
        (buildThingRowWE_names f₁ f₂ m₁ m₂ row
          (hsheet "Things" (by simp) row hr))) n₁ n₂)
  intro ⟨lT₁, m₁⟩ ⟨lT₂, m₂⟩ hT
  rw [List.map_id, List.map_id] at hT
  subst hT
  apply bind_rel _ id _ _
    (buildRowsWE_strip _ id f₁ f₂ _
      (fun row hr k₁ k₂ => congrArg (Except.map id)
        (buildLocationRowWE_names f₁ f₂ k₁ k₂ row
          (hsheet "Locations" (by simp) row hr))) m₁ m₂)
  intro ⟨lL₁, k₁⟩ ⟨lL₂, k₂⟩ hL
  rw [List.map_id, List.map_id] at hL
  subst hL
  apply bind_rel _ id _ _
    (buildRowsWE_strip _ id f₁ f₂ _
      (fun row hr a₁ a₂ => congrArg (Except.map id)
        (buildOPropRowWE_names f₁ f₂ a₁ a₂ row
          (hsheet "ObservedProperties" (by simp) row hr))) k₁ k₂)
  intro ⟨lO₁, a₁⟩ ⟨lO₂, a₂⟩ hO
  rw [List.map_id, List.map_id] at hO
  subst hO
  apply bind_rel _ id _ _
    (buildRowsWE_strip _ id f₁ f₂ _
      (fun row hr b₁ b₂ => congrArg (Except.map id)
        (buildSensorRowWE_names f₁ f₂ b₁ b₂ row
          (hsheet "Sensors" (by simp) row hr))) a₁ a₂)
  intro ⟨lS₁, b₁⟩ ⟨lS₂, b₂⟩ hS
  rw [List.map_id, List.map_id] at hS
  subst hS
  apply bind_rel _ id _ _
    (buildRowsWE_strip _ id f₁ f₂ _
      (fun row hr c₁ c₂ => congrArg (Except.map id)
        (buildDatastreamRowWE_names f₁ f₂ c₁ c₂ row
          (hsheet "Datastreams" (by simp) row hr))) b₁ b₂)
  intro ⟨lD₁, c₁⟩ ⟨lD₂, c₂⟩ hD
  rw [List.map_id, List.map_id] at hD
  subst hD
  apply bind_rel_same
  intro obs
  rfl

/-- C8 (amended): the normalized-shape transform assigns identical
synthetic Thing identifiers on any two runs over the same input, and
whenever every entity row supplies a `name` value the two runs produce
identical output documents; but when a row's `name` is absent, the
defaulted name embeds a fresh `uuid.uuid4()`, so two runs can differ in
those defaulted name values (and only there). -/
theorem c8_determinism_uuid_amended (tables : List (String × List VRow))
    (f₁ f₂ : Nat → String) (n₁ n₂ : Nat) :
    weDocThingIds (excelToSensorthingsWE f₁ n₁ tables) =
      weDocThingIds (excelToSensorthingsWE f₂ n₂ tables) ∧
    (namesPresentWE tables = true →
      excelToSensorthingsWE f₁ n₁ tables = excelToSensorthingsWE f₂ n₂ tables) :=
  ⟨weRunIds tables f₁ f₂ n₁ n₂,
   fun h => weRunEq_of_names tables f₁ f₂ n₁ n₂ h⟩

/-- C8 (counterexample): on a Things table whose single row has no
`name` column, two runs differing only in the uuid stream produce
different documents — the defaulted names are `Thing_aaaa` versus
`Thing_bbbb` — so the transform, as claimed, is not deterministic. -/
theorem c8_uuid_default_breaks_determinism :
    ¬ (excelToSensorthingsWE (fun _ => "aaaa") 0 tablesC8 =
       excelToSensorthingsWE (fun _ => "bbbb") 0 tablesC8) := by
  intro h
  have h2 := congrArg weDocThingNames h
  have e1 : weDocThingNames (excelToSensorthingsWE (fun _ => "aaaa") 0 tablesC8) =
      ["Thing_aaaa"] := rfl
  have e2 : weDocThingNames (excelToSensorthingsWE (fun _ => "bbbb") 0 tablesC8) =
      ["Thing_bbbb"] := rfl
  rw [e1, e2] at h2
  exact absurd h2 (by decide)

/-- Witness for the amended C8 at a workbook whose rows all carry
names: two runs with different uuid streams and counters agree on the
ids and on the whole document. -/
theorem c8_determinism_uuid_amended_witness :
    namesPresentWE tablesC8w = true ∧
    (weDocThingIds (excelToSensorthingsWE (fun _ => "aaaa") 3 tablesC8w) =
      weDocThingIds (excelToSensorthingsWE (fun _ => "bbbb") 7 tablesC8w) ∧
     excelToSensorthingsWE (fun _ => "aaaa") 3 tablesC8w =
       excelToSensorthingsWE (fun _ => "bbbb") 7 tablesC8w) :=
  ⟨rfl,
   ⟨(c8_determinism_uuid_amended tablesC8w (fun _ => "aaaa") (fun _ => "bbbb") 3 7).1,
    (c8_determinism_uuid_amended tablesC8w (fun _ => "aaaa") (fun _ => "bbbb") 3 7).2
      rfl⟩⟩

end STA
